import Mathlib

/-!
# Verification of the ScyllaDB partition-delete reproduction harness

Shallow embedding of

* `pkg/client/scylla.go`: the data access facade `ScyllaClient`
  (`NewScyllaClient`, `Close`, `InsertUser`, `DeleteUsersByOrgID`,
  `CountUsersByOrgID`, `GetAllUsersByOrgID`);
* `tests/reproduction_test.go`: the scenario
  `TestDeleteByPartitionKey_ReproducesIssue` with its two sub-tests.

The database driver (gocql), the clock and the test framework are outside the
repository.  The driver is a record of response functions over an arbitrary
state (`Driver`), so that a statement quantified over every driver and every
initial state covers every run.  The test framework is the part of Go's
`testing.T` and of testify's `assert` and `require` that the scenario uses,
with their documented behaviour: `assert` records a failure and goes on,
`require` records it and calls `t.FailNow`, which ends the goroutine of the
test it is called in, and `t.Run` runs a sub-test in a goroutine of its own and
returns to the parent when that sub-test is over.

Every request made through a session is recorded, with its answer, in
`World.trace`; this record is not part of the program and is only read by the
statements about which requests a run makes.
-/

namespace Repro

/-! ## Go values and errors -/

/-- Dynamic values that the program stores in `interface{}` slots: query
arguments, scanned columns and map entries are strings or ints. -/
inductive Value where
  | str (s : String)
  | int (n : Int)
deriving DecidableEq, Repr

/-- Go `error` values that are not nil.  `wrap` is the result of `fmt.Errorf`
with a `%w` verb: it keeps the wrapped cause. -/
inductive GoError where
  | leaf (msg : String)
  | wrap (msg : String) (cause : GoError)
deriving DecidableEq, Repr

/-- A Go `error`: `none` is `nil`. -/
abbrev Err := Option GoError

/-- The text of `err.Error()`. -/
def GoError.Error : GoError → String
  | .leaf msg => msg
  | .wrap msg _ => msg

/-- The result of `errors.Unwrap(err)`. -/
def GoError.Unwrap : GoError → Err
  | .leaf _ => none
  | .wrap _ cause => some cause

/-- The call `fmt.Errorf(pre + "%w", err)`: the message is the text before the
verb followed by the text of the cause, and the cause is kept. -/
def Errorf_w (pre : String) (err : GoError) : GoError :=
  .wrap (pre ++ err.Error) err

/-- The verb `%d` applied to an integer: its decimal numeral. -/
def fmtInt (n : Int) : String := toString n

/-- A map literal of type `map[string]interface{}`, as its list of entries. -/
abbrev GoMap := List (String × Value)

/-! ## The driver (gocql), taken as a parameter -/

/-- Consistency levels of the driver. -/
inductive Consistency where
  | Any | One | Two | Three | Quorum | All | LocalQuorum | EachQuorum | LocalOne
deriving DecidableEq, Repr

/-- The fields of `gocql.ClusterConfig` that `NewScyllaClient` sets, and the
host list.  Durations are in nanoseconds. -/
structure ClusterConfig where
  Hosts : List String
  Keyspace : String
  Consistency : Consistency
  Timeout : Nat
  ConnectTimeout : Nat
deriving DecidableEq, Repr

/-- The constant `time.Second`, in nanoseconds. -/
def Second : Nat := 1000000000

/-- A `*gocql.Session` that is not nil. -/
structure Session where
  id : Nat
deriving DecidableEq, Repr

/-- A statement with its bound values, as built by `session.Query(stmt, values...)`. -/
structure Query where
  stmt : String
  values : List Value
deriving DecidableEq, Repr

/-- One row of the result of the `SELECT user_id, user_data, version` query. -/
structure ScanRow where
  user_id : String
  user_data : String
  version : Int
deriving DecidableEq, Repr

/-- Modelled from the spec: the iterator of the driver is not part of the
repository.  A `*gocql.Iter` is a finite sequence of rows with a terminal
status: the rows it has still to deliver, and the status that `Close` reports
once the iteration has ended (`err` is not nil when the iteration ended in a
failure after delivering `rows`). -/
structure Iter where
  rows : List ScanRow
  err : Err
  closed : Bool
deriving DecidableEq, Repr

/-- The three variables `userID`, `userData`, `version` that
`GetAllUsersByOrgID` passes by address to `iter.Scan`. -/
structure ScanVars where
  userID : String
  userData : String
  version : Int
deriving DecidableEq, Repr

/-- Modelled from the spec: the call `iter.Scan(&userID, &userData, &version)`
of the driver.  When a row is left it is stored into the three variables and
the result is `true`; otherwise the variables are left alone and the result is
`false`. -/
def Iter.Scan (it : Iter) (dest : ScanVars) : Bool × Iter × ScanVars :=
  match it.rows with
  | r :: rest => (true, { it with rows := rest }, ⟨r.user_id, r.user_data, r.version⟩)
  | [] => (false, it, dest)

/-- Modelled from the spec: the call `iter.Close()` of the driver.  It marks the
iterator closed and returns its terminal status; calling it again returns the
same status. -/
def Iter.Close (it : Iter) : Err × Iter :=
  (it.err, { it with closed := true })

/-- What a session was asked to do and what it answered: a statement executed
with its error, a single count scanned with the value and the error, an
iterator opened with the rows it is to deliver and its final status, and the
closing of the session. -/
inductive Event where
  | exec (s : Session) (q : Query) (err : Err)
  | scan (s : Session) (q : Query) (count : Int) (err : Err)
  | iter (s : Session) (q : Query) (rows : List ScanRow) (err : Err)
  | close (s : Session)
deriving DecidableEq, Repr

/-- The driver and the database behind it: every response is a function of the
request and of a state `σ` that the response may change.
`ScanInt` is `Query.Scan(&count)` with `count` an `int` variable holding zero:
it answers the value left in `count` and the error. -/
structure Driver (σ : Type) where
  NewCluster : List String → ClusterConfig
  CreateSession : ClusterConfig → σ → Except GoError Session × σ
  Close : Session → σ → σ
  Exec : Session → Query → σ → Err × σ
  ScanInt : Session → Query → σ → (Int × Err) × σ
  Iter : Session → Query → σ → Iter × σ

/-- The world outside the program: the state behind the driver and the record
of the requests made through sessions, in the order they were made. -/
structure World (σ : Type) where
  db : σ
  trace : List Event

/-! ## `pkg/client/scylla.go` -/

/-- The struct `ScyllaClient`; `session` is a pointer and may be nil. -/
structure ScyllaClient where
  session : Option Session
deriving DecidableEq, Repr

/-- The function `NewScyllaClient`.  The first component is the returned
pointer (`none` is nil), the second the returned error. -/
def NewScyllaClient {σ : Type} (D : Driver σ) (hosts : List String) (w : World σ) :
    (Option ScyllaClient × Err) × World σ :=
  let cluster := D.NewCluster hosts
  let cluster := { cluster with Keyspace := "reproduction" }
  let cluster := { cluster with Consistency := Consistency.Quorum }
  let cluster := { cluster with Timeout := 10 * Second }
  let cluster := { cluster with ConnectTimeout := 10 * Second }
  match D.CreateSession cluster w.db with
  | (.error err, db) =>
    ((none, some (Errorf_w "failed to create session: " err)), { w with db := db })
  | (.ok session, db) =>
    ((some { session := some session }, none), { w with db := db })

/-- The method `Close`. -/
def ScyllaClient.Close {σ : Type} (D : Driver σ) (c : ScyllaClient) (w : World σ) : World σ :=
  match c.session with
  | some session => { db := D.Close session w.db, trace := w.trace ++ [Event.close session] }
  | none => w

/-- The statement of `InsertUser`. -/
def insertStmt : String :=
  "INSERT INTO platform_users (org_id, user_id, user_data, version, created_at) \n              VALUES (?, ?, ?, ?, toTimestamp(now()))"

/-- The statement of `DeleteUsersByOrgID`. -/
def deleteStmt : String := "DELETE FROM platform_users WHERE org_id = ?"

/-- The statement of `CountUsersByOrgID`. -/
def countStmt : String := "SELECT COUNT(*) FROM platform_users WHERE org_id = ?"

/-- The statement of `GetAllUsersByOrgID`. -/
def selectStmt : String :=
  "SELECT user_id, user_data, version FROM platform_users WHERE org_id = ?"

/-- The method `InsertUser`.  The result is `none` when `c.session` is nil
(the call through the nil pointer does not return). -/
def ScyllaClient.InsertUser {σ : Type} (D : Driver σ) (c : ScyllaClient)
    (orgID userID userData : String) (version : Int) (w : World σ) : Option (Err × World σ) :=
  match c.session with
  | none => none
  | some session =>
    let query := Query.mk insertStmt [.str orgID, .str userID, .str userData, .int version]
    let (err, db) := D.Exec session query w.db
    some (err, { db := db, trace := w.trace ++ [Event.exec session query err] })

/-- The method `DeleteUsersByOrgID`. -/
def ScyllaClient.DeleteUsersByOrgID {σ : Type} (D : Driver σ) (c : ScyllaClient)
    (orgID : String) (w : World σ) : Option (Err × World σ) :=
  match c.session with
  | none => none
  | some session =>
    let query := Query.mk deleteStmt [.str orgID]
    let (err, db) := D.Exec session query w.db
    some (err, { db := db, trace := w.trace ++ [Event.exec session query err] })

/-- The method `CountUsersByOrgID`. -/
def ScyllaClient.CountUsersByOrgID {σ : Type} (D : Driver σ) (c : ScyllaClient)
    (orgID : String) (w : World σ) : Option ((Int × Err) × World σ) :=
  match c.session with
  | none => none
  | some session =>
    let query := Query.mk countStmt [.str orgID]
    let ((count, err), db) := D.ScanInt session query w.db
    some ((count, err), { db := db, trace := w.trace ++ [Event.scan session query count err] })

/-- The loop `for iter.Scan(&userID, &userData, &version) { users = append(users, map...) }`:
each round that scans a row appends a new map holding the current values of
the three variables. -/
def scanLoop (it : Iter) (vars : ScanVars) (users : List GoMap) : Iter × ScanVars × List GoMap :=
  match h : it.Scan vars with
  | (true, it1, vars1) =>
    scanLoop it1 vars1
      (users ++ [[("user_id", .str vars1.userID), ("user_data", .str vars1.userData),
        ("version", .int vars1.version)]])
  | (false, it1, vars1) => (it1, vars1, users)
termination_by it.rows.length
decreasing_by
  unfold Iter.Scan at h
  split at h
  · next r rest hr =>
    simp only [Prod.mk.injEq, true_and] at h
    rw [← h.1, hr]
    simp
  · simp at h

/-- The method `GetAllUsersByOrgID`.  `users` starts as the nil slice and the
three scan variables as zero values; the returned error is the result of the
`iter.Close()` in the return statement, and the deferred `iter.Close()` runs
after it. -/
def ScyllaClient.GetAllUsersByOrgID {σ : Type} (D : Driver σ) (c : ScyllaClient)
    (orgID : String) (w : World σ) : Option ((List GoMap × Err) × World σ) :=
  match c.session with
  | none => none
  | some session =>
    let query := Query.mk selectStmt [.str orgID]
    let (iter, db) := D.Iter session query w.db
    let w1 : World σ :=
      { db := db, trace := w.trace ++ [Event.iter session query iter.rows iter.err] }
    let (iter, _, users) := scanLoop iter ⟨"", "", 0⟩ []
    let (err, iter) := iter.Close
    let _ := iter.Close
    some ((users, err), w1)

/-! ## The test framework: `testing.T`, `assert`, `require` -/

/-- An argument of a format string. -/
inductive Arg where
  | str (s : String)
  | int (n : Int)
  | maps (l : List GoMap)
deriving DecidableEq, Repr

/-- One record in the output of a test: which test made it, whether it is a
failure record (`Errorf`, or a failed assertion, for which `format` and `args`
are the message given by the caller) or only a log line (`Logf`), and the
format string with its arguments. -/
structure Entry where
  test : String
  isError : Bool
  format : String
  args : List Arg
deriving DecidableEq, Repr

/-- The part of a `*testing.T` that the scenario uses: the name of the test,
whether it has failed, and what it has reported. -/
structure T where
  name : String
  failed : Bool
  out : List Entry
deriving DecidableEq, Repr

/-- How a piece of test code ends: it returns a value, it stops its test
through `t.FailNow()` (which ends the goroutine of that test only), or it
panics. -/
inductive Flow (α : Type) where
  | ok (a : α)
  | failNow
  | panicked
deriving DecidableEq, Repr

/-- The state a test runs in. -/
structure TestState (σ : Type) where
  t : T
  w : World σ

/-- Test code: a function of the state that gives how it ends and the state
it leaves. -/
def TestM (σ : Type) (α : Type) : Type := TestState σ → Flow α × TestState σ

/-- Returning a value. -/
def TestM.pure {σ α : Type} (a : α) : TestM σ α := fun s => (.ok a, s)

/-- Sequencing: what follows runs only when what precedes returned. -/
def TestM.bind {σ α β : Type} (m : TestM σ α) (f : α → TestM σ β) : TestM σ β := fun s =>
  match m s with
  | (.ok a, s1) => f a s1
  | (.failNow, s1) => (.failNow, s1)
  | (.panicked, s1) => (.panicked, s1)

instance {σ : Type} : Monad (TestM σ) where
  pure := TestM.pure
  bind := TestM.bind

/-- A call of a facade method; a call through a nil session panics. -/
def call {σ α : Type} (f : World σ → Option (α × World σ)) : TestM σ α := fun s =>
  match f s.w with
  | some (a, w) => (.ok a, { s with w := w })
  | none => (.panicked, s)

/-- A call of a function that always returns. -/
def callTotal {σ α : Type} (f : World σ → α × World σ) : TestM σ α := fun s =>
  ((.ok (f s.w).1), { s with w := (f s.w).2 })

/-- A method call through a nil pointer: a run-time panic. -/
def nilDereference {σ α : Type} : TestM σ α := fun s => (.panicked, s)

/-- The method `t.Logf`. -/
def T.Logf {σ : Type} (format : String) (args : List Arg) : TestM σ Unit := fun s =>
  (.ok (), { s with t := { s.t with out := s.t.out ++ [⟨s.t.name, false, format, args⟩] } })

/-- The method `t.Errorf`: reports and marks the test failed. -/
def T.Errorf {σ : Type} (format : String) (args : List Arg) : TestM σ Unit := fun s =>
  (.ok (), { s with t := { s.t with failed := true,
                                    out := s.t.out ++ [⟨s.t.name, true, format, args⟩] } })

/-- The method `t.FailNow`: marks the test failed and ends its goroutine. -/
def T.FailNow {σ α : Type} : TestM σ α := fun s =>
  (.failNow, { s with t := { s.t with failed := true } })

/-- The `T` of a sub-test: named after its parent, not failed, nothing reported. -/
def T.sub (parent : T) (name : String) : T :=
  { name := parent.name ++ "/" ++ name, failed := false, out := [] }

/-- The method `t.Run(name, f)`: runs `f` as a sub-test with a `T` of its own
and waits for it.  A failure of the sub-test marks the parent failed too, and
the result is whether the sub-test did not fail.  A sub-test that stops through
`FailNow` ends only itself: the parent goes on.  A panic in the sub-test ends
the process. -/
def T.Run {σ : Type} (name : String) (f : TestM σ Unit) : TestM σ Bool := fun s =>
  match f { t := s.t.sub name, w := s.w } with
  | (.panicked, s1) =>
    (.panicked, { t := { s.t with failed := true, out := s.t.out ++ s1.t.out }, w := s1.w })
  | (_, s1) =>
    (.ok (!s1.t.failed),
      { t := { s.t with failed := s.t.failed || s1.t.failed, out := s.t.out ++ s1.t.out },
        w := s1.w })

/-- The statement `defer d()` followed by `body`: `d` runs when `body` returns
and when it stops through `FailNow`.  No code of `body` panics in the goroutine
of the test itself: a panic comes from a sub-test and ends the process, so `d`
does not run then. -/
def deferring {σ α : Type} (d : World σ → World σ) (body : TestM σ α) : TestM σ α := fun s =>
  match body s with
  | (.panicked, s1) => (.panicked, s1)
  | (r, s1) => (r, { s1 with w := d s1.w })

/-- The function `assert.NoError(t, err, msgAndArgs...)`. -/
def assert.NoError {σ : Type} (err : Err) (format : String) (args : List Arg) : TestM σ Bool :=
  match err with
  | some _ => do
    T.Errorf format args
    return false
  | none => return true

/-- The function `assert.Equal(t, expected, actual, msgAndArgs...)` on ints. -/
def assert.Equal {σ : Type} (expected actual : Int) (format : String) (args : List Arg) :
    TestM σ Bool :=
  if expected = actual then return true
  else do
    T.Errorf format args
    return false

/-- The function `assert.Len(t, object, length, msgAndArgs...)` on a slice of maps. -/
def assert.Len {σ : Type} (object : List GoMap) (length : Nat) (format : String)
    (args : List Arg) : TestM σ Bool :=
  if object.length = length then return true
  else do
    T.Errorf format args
    return false

/-- The function `require.NoError(t, err, msgAndArgs...)`: the assertion, and
`t.FailNow()` when it fails. -/
def require.NoError {σ : Type} (err : Err) (format : String) (args : List Arg) : TestM σ Unit := do
  if (← assert.NoError err format args) then return ()
  T.FailNow

/-- The loop `for i := lo; ...; i++ { body i }` that makes `n` rounds. -/
def forCount {σ : Type} (body : Nat → TestM σ Unit) : Nat → Nat → TestM σ Unit
  | 0, _ => return ()
  | n + 1, i => do
    body i
    forCount body n (i + 1)

/-- The loop `for i := lo; i <= hi; i++ { body i }`. -/
def forUpTo {σ : Type} (lo hi : Nat) (body : Nat → TestM σ Unit) : TestM σ Unit :=
  forCount body (hi + 1 - lo) lo

/-! ## `tests/reproduction_test.go` -/

/-- A `time.Time`, as seconds since the Unix epoch and nanoseconds within the
second. -/
structure Time where
  sec : Int
  nsec : Nat
deriving DecidableEq, Repr

/-- The method `Unix`: the seconds since the epoch. -/
def Time.Unix (t : Time) : Int := t.sec

/-- What the scenario reads from its surroundings: `runtime.GOOS`,
`runtime.GOARCH` and the result of `time.Now()`. -/
structure Env where
  GOOS : String
  GOARCH : String
  Now : Time
deriving DecidableEq, Repr

/-- The partition key of a run: `fmt.Sprintf("test-org-%d", time.Now().Unix())`. -/
def orgIDAt (now : Time) : String := "test-org-" ++ fmtInt now.Unix

/-- The sub-test `setup_test_data`. -/
def setup_test_data {σ : Type} (D : Driver σ) (scyllaClient : ScyllaClient) (orgID : String) :
    TestM σ Unit := do
  forUpTo 1 3 (fun i => do
    let userID := "user-" ++ fmtInt i
    let userData := "\x7b\"name\":\"User" ++ fmtInt i ++ "\"\x7d"
    let err ← call (scyllaClient.InsertUser D orgID userID userData 1)
    require.NoError err "Failed to insert user %s" [.str userID])
  let (count, err) ← call (scyllaClient.CountUsersByOrgID D orgID)
  require.NoError err "Failed to count users" []
  let _ ← assert.Equal 3 count "Expected 3 users to be inserted" []
  let (users, err) ← call (scyllaClient.GetAllUsersByOrgID D orgID)
  require.NoError err "Failed to get users" []
  let _ ← assert.Len users 3 "Expected 3 users in result set" []

/-- The sub-test `delete_by_partition_key`. -/
def delete_by_partition_key {σ : Type} (env : Env) (D : Driver σ) (scyllaClient : ScyllaClient)
    (orgID : String) : TestM σ Unit := do
  let err ← call (scyllaClient.DeleteUsersByOrgID D orgID)
  let _ ← assert.NoError err "DELETE by partition key should not return error" []
  let (count, err) ← call (scyllaClient.CountUsersByOrgID D orgID)
  require.NoError err "Failed to count users after deletion" []
  if count ≠ 0 then
    T.Errorf "ISSUE REPRODUCED: DELETE by partition key failed silently" []
    T.Logf "Platform: %s/%s" [.str env.GOOS, .str env.GOARCH]
    T.Logf "Expected 0 users, got %d users" [.int count]
    let (users, err) ← call (scyllaClient.GetAllUsersByOrgID D orgID)
    if err = none then
      T.Logf "Remaining users: %+v" [.maps users]
  else
    T.Logf "SUCCESS: DELETE by partition key worked correctly" []
  let _ ← assert.Equal 0 count "All users should be deleted when deleting by partition key" []

/-- The test `TestDeleteByPartitionKey_ReproducesIssue`.  After
`require.NoError` the error is nil, and a nil `scyllaClient` would be
dereferenced by the first method call on it. -/
def TestDeleteByPartitionKey_ReproducesIssue {σ : Type} (env : Env) (D : Driver σ) :
    TestM σ Unit := do
  T.Logf "Running on platform: %s/%s" [.str env.GOOS, .str env.GOARCH]
  let (scyllaClient, err) ← callTotal (NewScyllaClient D ["127.0.0.1:9043"])
  require.NoError err "Failed to connect to ScyllaDB" []
  match scyllaClient with
  | none => nilDereference
  | some scyllaClient =>
    deferring (scyllaClient.Close D) do
      let orgID := orgIDAt env.Now
      let _ ← T.Run "setup_test_data" (setup_test_data D scyllaClient orgID)
      let _ ← T.Run "delete_by_partition_key" (delete_by_partition_key env D scyllaClient orgID)

/-- The state in which the test runner starts the test. -/
def startState {σ : Type} (db : σ) : TestState σ :=
  { t := { name := "TestDeleteByPartitionKey_ReproducesIssue", failed := false, out := [] },
    w := { db := db, trace := [] } }

/-! ## The reference store -/

/-- Modelled from the spec: a row of the table `platform_users`, with the
columns of the store schema. -/
structure StoredRow where
  org_id : String
  user_id : String
  user_data : String
  version : Int
  created_at : Nat
deriving DecidableEq, Repr

/-- Modelled from the spec: the state of the reference store, which is not part
of the repository: the rows of the table, at most one for each pair of
`org_id` and `user_id` it was given, and the server clock. -/
structure RefDB where
  rows : List StoredRow
  clock : Nat
deriving DecidableEq, Repr

/-- The rows of one partition. -/
def RefDB.partition (db : RefDB) (org : String) : List StoredRow :=
  db.rows.filter (fun r => r.org_id = org)

/-- Modelled from the spec: writing a row of the reference store under its
primary key `(org_id, user_id)`: the row with that key is replaced when there
is one, and the row is added otherwise. -/
def upsertRow (r : StoredRow) : List StoredRow → List StoredRow
  | [] => [r]
  | x :: xs =>
    if x.org_id = r.org_id ∧ x.user_id = r.user_id then r :: xs else x :: upsertRow r xs

/-- The error of a request that the reference store does not know. -/
def errInvalid : GoError := .leaf "invalid request"

/-- The error of a request that timed out. -/
def errTimeout : GoError := .leaf "gocql: no response received from cassandra within timeout period"

/-- Modelled from the spec: the store behind the driver is not part of the
repository.  This is a correctly behaving store: a table keyed by
`(org_id, user_id)` in which INSERT writes one row under its key with the
server time, DELETE WHERE org_id removes every row of that partition, COUNT and
SELECT read the partition, sessions are always granted and no known request
fails. -/
def refDriver : Driver RefDB where
  NewCluster hosts :=
    { Hosts := hosts, Keyspace := "", Consistency := .Quorum,
      Timeout := 11 * Second, ConnectTimeout := 11 * Second }
  CreateSession _ db := (.ok ⟨0⟩, db)
  Close _ db := db
  Exec _ q db :=
    if q.stmt = insertStmt then
      match q.values with
      | [.str org, .str user, .str data, .int version] =>
        (none, { rows := upsertRow ⟨org, user, data, version, db.clock⟩ db.rows,
                 clock := db.clock + 1 })
      | _ => (some errInvalid, db)
    else if q.stmt = deleteStmt then
      match q.values with
      | [.str org] => (none, { db with rows := db.rows.filter (fun r => r.org_id ≠ org) })
      | _ => (some errInvalid, db)
    else (some errInvalid, db)
  ScanInt _ q db :=
    if q.stmt = countStmt then
      match q.values with
      | [.str org] => (((db.partition org).length, none), db)
      | _ => ((0, some errInvalid), db)
    else ((0, some errInvalid), db)
  Iter _ q db :=
    if q.stmt = selectStmt then
      match q.values with
      | [.str org] =>
        ({ rows := (db.partition org).map (fun r => ⟨r.user_id, r.user_data, r.version⟩),
           err := none, closed := false }, db)
      | _ => ({ rows := [], err := some errInvalid, closed := false }, db)
    else ({ rows := [], err := some errInvalid, closed := false }, db)

/-- The reference store behind a driver that misbehaves: no session is granted
when `connect` is set, a request whose statement is in `timeouts` fails with a
timeout and leaves the store as it was, and a write whose statement is in
`ignored` is acknowledged without error but leaves the store as it was. -/
def faultyDriver (connect : Bool) (timeouts ignored : List String) : Driver RefDB where
  NewCluster := refDriver.NewCluster
  CreateSession cfg db :=
    if connect then (.error (.leaf "gocql: unable to create session"), db)
    else refDriver.CreateSession cfg db
  Close := refDriver.Close
  Exec s q db :=
    if q.stmt ∈ timeouts then (some errTimeout, db)
    else if q.stmt ∈ ignored then (none, db)
    else refDriver.Exec s q db
  ScanInt s q db :=
    if q.stmt ∈ timeouts then ((0, some errTimeout), db) else refDriver.ScanInt s q db
  Iter s q db :=
    if q.stmt ∈ timeouts then ({ rows := [], err := some errTimeout, closed := false }, db)
    else refDriver.Iter s q db

/-- A driver whose iterator for every SELECT delivers the given rows and then
ends with the given status; it changes nothing and every other request
succeeds. -/
def iterDriver (rows : List ScanRow) (err : Err) : Driver Unit where
  NewCluster := refDriver.NewCluster
  CreateSession _ u := (.ok ⟨0⟩, u)
  Close _ u := u
  Exec _ _ u := (none, u)
  ScanInt _ _ u := ((rows.length, none), u)
  Iter _ _ u := ({ rows := rows, err := err, closed := false }, u)

/-- A driver whose state is the list of the sessions that are open:
`CreateSession` opens a new session, `Close` takes the session off the list,
and every request succeeds with nothing to deliver. -/
def sessionDriver : Driver (List Session) where
  NewCluster := refDriver.NewCluster
  CreateSession _ opened := (.ok ⟨opened.length⟩, ⟨opened.length⟩ :: opened)
  Close s opened := opened.filter (fun x => x ≠ s)
  Exec _ _ opened := (none, opened)
  ScanInt _ _ opened := ((0, none), opened)
  Iter _ _ opened := ({ rows := [], err := none, closed := false }, opened)

/-- Calling `InsertUser(p, id, data, v)` for each `(id, data, v)` of a list, in
order, with the errors dropped; `none` when a call does not return. -/
def insertAll {σ : Type} (D : Driver σ) (c : ScyllaClient) (p : String) :
    List (String × String × Int) → World σ → Option (World σ)
  | [], w => some w
  | (id, data, v) :: rest, w =>
    match c.InsertUser D p id data v w with
    | none => none
    | some (_, w1) => insertAll D c p rest w1

/-- The value bound to a key of a map. -/
def GoMap.get (m : GoMap) (key : String) : Option Value := (m.lookup key)

/-- The statement of a request; `none` for the closing of a session. -/
def Event.stmt : Event → Option String
  | .exec _ q _ => some q.stmt
  | .scan _ q _ _ => some q.stmt
  | .iter _ q _ _ => some q.stmt
  | .close _ => none

/-- Whether the event is a DELETE by partition key. -/
def Event.isDelete (e : Event) : Bool := e.stmt = some deleteStmt

/-- Whether the event is a request made through a session. -/
def Event.isQuery (e : Event) : Bool := e.stmt.isSome

/-- The failure records of a test. -/
def T.errors (t : T) : List Entry := t.out.filter (fun e => e.isError)

/-- The map that `GetAllUsersByOrgID` builds for a scanned row. -/
def rowMap (r : ScanRow) : GoMap :=
  [("user_id", .str r.user_id), ("user_data", .str r.user_data), ("version", .int r.version)]

/-- Test code that never panics and that adds to the record of requests only
events that satisfy `P`. -/
def Adds {σ α : Type} (P : Event → Prop) (m : TestM σ α) : Prop :=
  ∀ s, (m s).1 ≠ Flow.panicked ∧
    ∃ evs, (m s).2.w.trace = s.w.trace ++ evs ∧ ∀ e ∈ evs, P e

/-- The cluster configuration that `NewScyllaClient` passes to `CreateSession`. -/
def clusterOf {σ : Type} (D : Driver σ) (hosts : List String) : ClusterConfig :=
  { Hosts := (D.NewCluster hosts).Hosts, Keyspace := "reproduction",
    Consistency := Consistency.Quorum, Timeout := 10 * Second, ConnectTimeout := 10 * Second }

/-- A run on Linux that starts at the Unix second 1700000000. -/
def exampleEnv : Env := ⟨"linux", "amd64", ⟨1700000000, 0⟩⟩

/-- The reference store with nothing in it. -/
def emptyStore : RefDB := ⟨[], 0⟩

/-- The reference store holding the three rows of the partition
`test-org-1700000000` as the scenario seeds them. -/
def seededStore : RefDB :=
  { rows := [⟨"test-org-1700000000", "user-1", "\x7b\"name\":\"User1\"\x7d", 1, 0⟩,
             ⟨"test-org-1700000000", "user-2", "\x7b\"name\":\"User2\"\x7d", 1, 1⟩,
             ⟨"test-org-1700000000", "user-3", "\x7b\"name\":\"User3\"\x7d", 1, 2⟩],
    clock := 3 }

/-- The `T` of the sub-test `delete_by_partition_key` when it starts. -/
def deleteStepT : T :=
  T.sub ⟨"TestDeleteByPartitionKey_ReproducesIssue", false, []⟩ "delete_by_partition_key"

/-- The INSERT that `setup_test_data` issues in round `i` of its loop. -/
def seedQuery (orgID : String) (i : Nat) : Query :=
  ⟨insertStmt, [.str orgID, .str ("user-" ++ fmtInt i),
                .str ("\x7b\"name\":\"User" ++ fmtInt i ++ "\"\x7d"), .int 1]⟩

/-- The rows that the scenario seeds under a partition key, as the reference
store holds them when the first is written at time `clock`. -/
def seedRows (orgID : String) (clock : Nat) : List StoredRow :=
  [⟨orgID, "user-1", "\x7b\"name\":\"User1\"\x7d", 1, clock⟩,
   ⟨orgID, "user-2", "\x7b\"name\":\"User2\"\x7d", 1, clock + 1⟩,
   ⟨orgID, "user-3", "\x7b\"name\":\"User3\"\x7d", 1, clock + 2⟩]

/-- The rows that a SELECT of the seeded partition delivers. -/
def seedScanRows : List ScanRow :=
  [⟨"user-1", "\x7b\"name\":\"User1\"\x7d", 1⟩,
   ⟨"user-2", "\x7b\"name\":\"User2\"\x7d", 1⟩,
   ⟨"user-3", "\x7b\"name\":\"User3\"\x7d", 1⟩]

/-- The rows that the reference store holds for a list of `(id, data, version)`
inserted one after the other under the partition key `p`, the first at time
`clock`. -/
def storedAs (p : String) : Nat → List (String × String × Int) → List StoredRow
  | _, [] => []
  | clock, (id, data, v) :: rest => ⟨p, id, data, v, clock⟩ :: storedAs p (clock + 1) rest

/-- The number that a list of decimal digit characters writes. -/
def decimalValue (cs : List Char) : Nat :=
  cs.foldl (fun acc c => 10 * acc + (c.toNat - 48)) 0

/-- The integer that a decimal numeral with an optional minus sign writes. -/
def intValue (s : String) : Int :=
  match s.data with
  | '-' :: cs => - (decimalValue cs : Int)
  | cs => (decimalValue cs : Int)

/-- The hosts that the scenario connects to. -/
def scenarioHosts : List String := ["127.0.0.1:9043"]

/-- The state of the scenario after it has logged the platform and connected:
the store is in the state `db1` that the connection left. -/
def connectedState {σ : Type} (env : Env) (db1 : σ) : TestState σ :=
  { t := { name := "TestDeleteByPartitionKey_ReproducesIssue", failed := false,
           out := [⟨"TestDeleteByPartitionKey_ReproducesIssue", false,
                    "Running on platform: %s/%s", [.str env.GOOS, .str env.GOARCH]⟩] },
    w := { db := db1, trace := [] } }

/-- The state that the sub-test `setup_test_data` leaves to the scenario. -/
def afterSetup {σ : Type} (env : Env) (D : Driver σ) (session : Session) (db1 : σ) :
    TestState σ :=
  (T.Run "setup_test_data" (setup_test_data D ⟨some session⟩ (orgIDAt env.Now))
    (connectedState env db1)).2

/-- The state that the sub-test `delete_by_partition_key` leaves to the scenario. -/
def afterDelete {σ : Type} (env : Env) (D : Driver σ) (session : Session) (db1 : σ) :
    TestState σ :=
  (T.Run "delete_by_partition_key"
    (delete_by_partition_key env D ⟨some session⟩ (orgIDAt env.Now))
    (afterSetup env D session db1)).2

/-! ## Properties -/

/-! ### The scan loop -/

theorem scanLoop_rows (rows : List ScanRow) (err : Err) (cl : Bool) (vars : ScanVars)
    (users : List GoMap) :
    (scanLoop ⟨rows, err, cl⟩ vars users).2.2 = users ++ rows.map rowMap ∧
    (scanLoop ⟨rows, err, cl⟩ vars users).1 = ⟨[], err, cl⟩ := by
  induction rows generalizing vars users with
  | nil =>
    rw [scanLoop]
    simp [Iter.Scan]
  | cons r rest ih =>
    rw [scanLoop]
    simp only [Iter.Scan]
    have h := ih ⟨r.user_id, r.user_data, r.version⟩ (users ++ [rowMap r])
    simp only [rowMap] at h
    simp [h, rowMap]

theorem GetAllUsersByOrgID_eq {σ : Type} (D : Driver σ) (session : Session) (orgID : String)
    (w : World σ) :
    (ScyllaClient.mk (some session)).GetAllUsersByOrgID D orgID w =
      some (((D.Iter session ⟨selectStmt, [.str orgID]⟩ w.db).1.rows.map rowMap,
             (D.Iter session ⟨selectStmt, [.str orgID]⟩ w.db).1.err),
            { db := (D.Iter session ⟨selectStmt, [.str orgID]⟩ w.db).2,
              trace := w.trace ++ [Event.iter session ⟨selectStmt, [.str orgID]⟩
                (D.Iter session ⟨selectStmt, [.str orgID]⟩ w.db).1.rows
                (D.Iter session ⟨selectStmt, [.str orgID]⟩ w.db).1.err] }) := by
  rcases hq : D.Iter session ⟨selectStmt, [.str orgID]⟩ w.db with ⟨⟨rows, err, cl⟩, db⟩
  have h := scanLoop_rows rows err cl ⟨"", "", 0⟩ []
  rcases hs : scanLoop ⟨rows, err, cl⟩ ⟨"", "", 0⟩ [] with ⟨it1, vars1, users1⟩
  rw [hs] at h
  simp only [List.nil_append] at h
  simp only [ScyllaClient.GetAllUsersByOrgID, hq, hs, Iter.Close, h.1, h.2]

/-! ### `GetAllUsersByOrgID` -/

/-- C4: when the iterator of the query delivers its rows and then ends with a
failure `e` (`iter.Close` returns `e`), `GetAllUsersByOrgID` returns the error
`e`, which is not nil, together with the maps of the rows scanned before the
failure. -/
theorem GetAllUsersByOrgID_surfaces_error {σ : Type} (D : Driver σ) (session : Session)
    (orgID : String) (w : World σ) (it : Iter) (db1 : σ) (e : GoError)
    (hit : D.Iter session ⟨selectStmt, [.str orgID]⟩ w.db = (it, db1))
    (hfail : it.Close.1 = some e) :
    (ScyllaClient.mk (some session)).GetAllUsersByOrgID D orgID w =
      some ((it.rows.map (fun r => [("user_id", .str r.user_id), ("user_data", .str r.user_data),
                                    ("version", .int r.version)]),
             some e),
            { db := db1,
              trace := w.trace ++
                [Event.iter session ⟨selectStmt, [.str orgID]⟩ it.rows (some e)] }) := by
  rw [GetAllUsersByOrgID_eq, hit]
  simp only [Iter.Close] at hfail
  simp only [hfail]
  rfl

theorem GetAllUsersByOrgID_surfaces_error_witness :
    (ScyllaClient.mk (some ⟨0⟩)).GetAllUsersByOrgID
        (iterDriver [⟨"user-1", "a", 1⟩, ⟨"user-2", "b", 1⟩] (some errTimeout)) "org" ⟨(), []⟩ =
      some (([[("user_id", .str "user-1"), ("user_data", .str "a"), ("version", .int 1)],
              [("user_id", .str "user-2"), ("user_data", .str "b"), ("version", .int 1)]],
             some errTimeout),
            { db := (),
              trace := [Event.iter ⟨0⟩ ⟨selectStmt, [.str "org"]⟩
                [⟨"user-1", "a", 1⟩, ⟨"user-2", "b", 1⟩] (some errTimeout)] }) :=
  GetAllUsersByOrgID_surfaces_error
    (iterDriver [⟨"user-1", "a", 1⟩, ⟨"user-2", "b", 1⟩] (some errTimeout)) ⟨0⟩ "org" ⟨(), []⟩
    ⟨[⟨"user-1", "a", 1⟩, ⟨"user-2", "b", 1⟩], some errTimeout, false⟩ () errTimeout rfl rfl

/-- C10: when the iterator of the query delivers rows `r_1 .. r_k` and ends
without error, `GetAllUsersByOrgID` returns a nil error and a list of exactly
`k` maps, in the order of the iteration, the map at each position holding the
three keys `user_id`, `user_data` and `version` bound to the values of the row
at that position; for no rows the list is empty. -/
theorem GetAllUsersByOrgID_rows {σ : Type} (D : Driver σ) (session : Session)
    (orgID : String) (w : World σ) (it : Iter) (db1 : σ)
    (hit : D.Iter session ⟨selectStmt, [.str orgID]⟩ w.db = (it, db1))
    (hok : it.Close.1 = none) :
    ∃ L : List GoMap,
      (ScyllaClient.mk (some session)).GetAllUsersByOrgID D orgID w =
        some ((L, none),
              { db := db1,
                trace := w.trace ++
                  [Event.iter session ⟨selectStmt, [.str orgID]⟩ it.rows none] }) ∧
      L.length = it.rows.length ∧
      (∀ i (h : i < it.rows.length), L[i]? =
        some [("user_id", .str (it.rows.get ⟨i, h⟩).user_id),
              ("user_data", .str (it.rows.get ⟨i, h⟩).user_data),
              ("version", .int (it.rows.get ⟨i, h⟩).version)]) ∧
      (it.rows = [] → L = []) := by
  refine ⟨it.rows.map rowMap, ?_, ?_, ?_, ?_⟩
  · rw [GetAllUsersByOrgID_eq, hit]
    simp only [Iter.Close] at hok
    simp only [hok]
  · simp
  · intro i h
    simp [rowMap, h]
  · intro h
    simp [h]

theorem GetAllUsersByOrgID_rows_witness :
    ∃ L : List GoMap,
      (ScyllaClient.mk (some ⟨0⟩)).GetAllUsersByOrgID
        (iterDriver [⟨"user-1", "a", 1⟩, ⟨"user-2", "b", 2⟩] none) "org" ⟨(), []⟩ =
        some ((L, none),
              { db := (),
                trace := [Event.iter ⟨0⟩ ⟨selectStmt, [.str "org"]⟩
                  [⟨"user-1", "a", 1⟩, ⟨"user-2", "b", 2⟩] none] }) ∧
      L.length = 2 ∧
      (∀ i (h : i < 2), L[i]? =
        some [("user_id", .str (([⟨"user-1", "a", 1⟩, ⟨"user-2", "b", 2⟩] : List ScanRow).get
                ⟨i, h⟩).user_id),
              ("user_data", .str (([⟨"user-1", "a", 1⟩, ⟨"user-2", "b", 2⟩] : List ScanRow).get
                ⟨i, h⟩).user_data),
              ("version", .int (([⟨"user-1", "a", 1⟩, ⟨"user-2", "b", 2⟩] : List ScanRow).get
                ⟨i, h⟩).version)]) ∧
      (([⟨"user-1", "a", 1⟩, ⟨"user-2", "b", 2⟩] : List ScanRow) = [] → L = []) :=
  GetAllUsersByOrgID_rows (iterDriver [⟨"user-1", "a", 1⟩, ⟨"user-2", "b", 2⟩] none)
    ⟨0⟩ "org" ⟨(), []⟩ ⟨[⟨"user-1", "a", 1⟩, ⟨"user-2", "b", 2⟩], none, false⟩ () rfl rfl

/-! ### Running test code -/

theorem bind_run {σ α β : Type} (m : TestM σ α) (f : α → TestM σ β) (s : TestState σ) :
    (m >>= f) s =
      match m s with
      | (.ok a, s1) => f a s1
      | (.failNow, s1) => (.failNow, s1)
      | (.panicked, s1) => (.panicked, s1) := rfl

theorem pure_run {σ α : Type} (a : α) (s : TestState σ) :
    (Pure.pure a : TestM σ α) s = (.ok a, s) := rfl

theorem call_InsertUser {σ : Type} (D : Driver σ) (session : Session)
    (orgID userID userData : String) (version : Int) (s : TestState σ) :
    call ((ScyllaClient.mk (some session)).InsertUser D orgID userID userData version) s =
      (.ok (D.Exec session
              ⟨insertStmt, [.str orgID, .str userID, .str userData, .int version]⟩ s.w.db).1,
        { s with w :=
          { db := (D.Exec session
              ⟨insertStmt, [.str orgID, .str userID, .str userData, .int version]⟩ s.w.db).2,
            trace := s.w.trace ++ [Event.exec session
              ⟨insertStmt, [.str orgID, .str userID, .str userData, .int version]⟩
              (D.Exec session
                ⟨insertStmt, [.str orgID, .str userID, .str userData, .int version]⟩
                s.w.db).1] } }) := rfl

theorem call_DeleteUsersByOrgID {σ : Type} (D : Driver σ) (session : Session)
    (orgID : String) (s : TestState σ) :
    call ((ScyllaClient.mk (some session)).DeleteUsersByOrgID D orgID) s =
      (.ok (D.Exec session ⟨deleteStmt, [.str orgID]⟩ s.w.db).1,
        { s with w :=
          { db := (D.Exec session ⟨deleteStmt, [.str orgID]⟩ s.w.db).2,
            trace := s.w.trace ++ [Event.exec session ⟨deleteStmt, [.str orgID]⟩
              (D.Exec session ⟨deleteStmt, [.str orgID]⟩ s.w.db).1] } }) := rfl

theorem call_CountUsersByOrgID {σ : Type} (D : Driver σ) (session : Session)
    (orgID : String) (s : TestState σ) :
    call ((ScyllaClient.mk (some session)).CountUsersByOrgID D orgID) s =
      (.ok (D.ScanInt session ⟨countStmt, [.str orgID]⟩ s.w.db).1,
        { s with w :=
          { db := (D.ScanInt session ⟨countStmt, [.str orgID]⟩ s.w.db).2,
            trace := s.w.trace ++ [Event.scan session ⟨countStmt, [.str orgID]⟩
              (D.ScanInt session ⟨countStmt, [.str orgID]⟩ s.w.db).1.1
              (D.ScanInt session ⟨countStmt, [.str orgID]⟩ s.w.db).1.2] } }) := rfl

theorem call_GetAllUsersByOrgID {σ : Type} (D : Driver σ) (session : Session)
    (orgID : String) (s : TestState σ) :
    call ((ScyllaClient.mk (some session)).GetAllUsersByOrgID D orgID) s =
      (.ok ((D.Iter session ⟨selectStmt, [.str orgID]⟩ s.w.db).1.rows.map rowMap,
            (D.Iter session ⟨selectStmt, [.str orgID]⟩ s.w.db).1.err),
        { s with w :=
          { db := (D.Iter session ⟨selectStmt, [.str orgID]⟩ s.w.db).2,
            trace := s.w.trace ++ [Event.iter session ⟨selectStmt, [.str orgID]⟩
              (D.Iter session ⟨selectStmt, [.str orgID]⟩ s.w.db).1.rows
              (D.Iter session ⟨selectStmt, [.str orgID]⟩ s.w.db).1.err] } }) := by
  simp only [call, GetAllUsersByOrgID_eq]

/-! ### What test code adds to the record of requests -/

theorem Adds.pure {σ α : Type} (P : Event → Prop) (a : α) : Adds P (Pure.pure a : TestM σ α) :=
  fun s => ⟨by simp [pure_run], [], by simp [pure_run], by simp⟩

theorem Adds.bind {σ α β : Type} {P : Event → Prop} {m : TestM σ α} {f : α → TestM σ β}
    (hm : Adds P m) (hf : ∀ a, Adds P (f a)) : Adds P (m >>= f) := by
  intro s
  obtain ⟨hp, evs, htr, hP⟩ := hm s
  rw [bind_run]
  rcases hms : m s with ⟨fl, s1⟩
  rw [hms] at hp htr
  cases fl with
  | ok a =>
    obtain ⟨hp2, evs2, htr2, hP2⟩ := hf a s1
    refine ⟨hp2, evs ++ evs2, ?_, ?_⟩
    · simp only at htr
      simp only [htr2, htr, List.append_assoc]
    · intro e he
      rcases List.mem_append.mp he with h | h
      · exact hP e h
      · exact hP2 e h
  | failNow => exact ⟨by simp, evs, htr, hP⟩
  | panicked => exact absurd rfl hp

theorem Adds.of_state {σ α : Type} (P : Event → Prop) (m : TestM σ α)
    (h : ∀ s, (m s).1 ≠ Flow.panicked ∧ (m s).2.w = s.w) : Adds P m :=
  fun s => ⟨(h s).1, [], by simp [(h s).2], by simp⟩

theorem Adds.Logf {σ : Type} (P : Event → Prop) (format : String) (args : List Arg) :
    Adds P (T.Logf format args : TestM σ Unit) :=
  Adds.of_state P _ (fun _ => ⟨by simp [T.Logf], rfl⟩)

theorem Adds.Errorf {σ : Type} (P : Event → Prop) (format : String) (args : List Arg) :
    Adds P (T.Errorf format args : TestM σ Unit) :=
  Adds.of_state P _ (fun _ => ⟨by simp [T.Errorf], rfl⟩)

theorem Adds.FailNow {σ α : Type} (P : Event → Prop) : Adds P (T.FailNow : TestM σ α) :=
  Adds.of_state P _ (fun _ => ⟨by simp [T.FailNow], rfl⟩)

theorem Adds.ite {σ α : Type} {P : Event → Prop} (c : Prop) [Decidable c] {a b : TestM σ α}
    (ha : Adds P a) (hb : Adds P b) : Adds P (if c then a else b) := by
  split
  · exact ha
  · exact hb

theorem Adds.assert_NoError {σ : Type} (P : Event → Prop) (err : Err) (format : String)
    (args : List Arg) : Adds P (assert.NoError err format args : TestM σ Bool) := by
  cases err with
  | none => exact Adds.pure P true
  | some e => exact Adds.bind (Adds.Errorf P _ _) (fun _ => Adds.pure P false)

theorem Adds.assert_Equal {σ : Type} (P : Event → Prop) (expected actual : Int) (format : String)
    (args : List Arg) : Adds P (assert.Equal expected actual format args : TestM σ Bool) :=
  Adds.ite _ (Adds.pure P true) (Adds.bind (Adds.Errorf P _ _) (fun _ => Adds.pure P false))

theorem Adds.assert_Len {σ : Type} (P : Event → Prop) (object : List GoMap) (length : Nat)
    (format : String) (args : List Arg) :
    Adds P (assert.Len object length format args : TestM σ Bool) :=
  Adds.ite _ (Adds.pure P true) (Adds.bind (Adds.Errorf P _ _) (fun _ => Adds.pure P false))

theorem Adds.require_NoError {σ : Type} (P : Event → Prop) (err : Err) (format : String)
    (args : List Arg) : Adds P (require.NoError err format args : TestM σ Unit) := by
  refine Adds.bind (Adds.assert_NoError P _ _ _) (fun b => ?_)
  cases b
  · exact Adds.bind (Adds.pure P _) (fun _ => Adds.FailNow P)
  · exact Adds.pure P ()

theorem Adds.of_call {σ α : Type} {P : Event → Prop} (f : World σ → Option (α × World σ))
    (h : ∀ w, ∃ a w1 ev, f w = some (a, w1) ∧ w1.trace = w.trace ++ [ev] ∧ P ev) :
    Adds P (call f) := by
  intro s
  obtain ⟨a, w1, ev, hf, htr, hP⟩ := h s.w
  simp only [call, hf]
  exact ⟨by simp, [ev], htr, by simpa using hP⟩

theorem Adds.InsertUser {σ : Type} {P : Event → Prop} (D : Driver σ) (session : Session)
    (orgID userID userData : String) (version : Int)
    (hP : ∀ e : Event, e.stmt = some insertStmt → P e) :
    Adds P (call ((ScyllaClient.mk (some session)).InsertUser D orgID userID userData version)) :=
  Adds.of_call _ (fun _ => ⟨_, _, _, rfl, rfl, hP _ rfl⟩)

theorem Adds.DeleteUsersByOrgID {σ : Type} {P : Event → Prop} (D : Driver σ) (session : Session)
    (orgID : String) (hP : ∀ e : Event, e.stmt = some deleteStmt → P e) :
    Adds P (call ((ScyllaClient.mk (some session)).DeleteUsersByOrgID D orgID)) :=
  Adds.of_call _ (fun _ => ⟨_, _, _, rfl, rfl, hP _ rfl⟩)

theorem Adds.CountUsersByOrgID {σ : Type} {P : Event → Prop} (D : Driver σ) (session : Session)
    (orgID : String) (hP : ∀ e : Event, e.stmt = some countStmt → P e) :
    Adds P (call ((ScyllaClient.mk (some session)).CountUsersByOrgID D orgID)) :=
  Adds.of_call _ (fun _ => ⟨_, _, _, rfl, rfl, hP _ rfl⟩)

theorem Adds.GetAllUsersByOrgID {σ : Type} {P : Event → Prop} (D : Driver σ) (session : Session)
    (orgID : String) (hP : ∀ e : Event, e.stmt = some selectStmt → P e) :
    Adds P (call ((ScyllaClient.mk (some session)).GetAllUsersByOrgID D orgID)) :=
  Adds.of_call _ (fun w => ⟨_, _, _, GetAllUsersByOrgID_eq D session orgID w, rfl, hP _ rfl⟩)

theorem Adds.forCount {σ : Type} {P : Event → Prop} (body : Nat → TestM σ Unit)
    (h : ∀ i, Adds P (body i)) (n i : Nat) : Adds P (forCount body n i) := by
  induction n generalizing i with
  | zero => exact Adds.pure P ()
  | succ n ih => exact Adds.bind (h i) (fun _ => ih (i + 1))

theorem Adds.Run {σ : Type} {P : Event → Prop} (name : String) (f : TestM σ Unit)
    (h : Adds P f) : Adds P (T.Run name f) := by
  intro s
  obtain ⟨hp, evs, htr, hP⟩ := h { t := s.t.sub name, w := s.w }
  simp only [T.Run]
  rcases hfs : f { t := s.t.sub name, w := s.w } with ⟨fl, s1⟩
  rw [hfs] at hp htr
  cases fl with
  | ok a => exact ⟨by simp, evs, htr, hP⟩
  | failNow => exact ⟨by simp, evs, htr, hP⟩
  | panicked => exact absurd rfl hp

theorem Adds.setup_test_data {σ : Type} {P : Event → Prop} (D : Driver σ) (session : Session)
    (orgID : String)
    (hP : ∀ e : Event, e.stmt = some insertStmt ∨ e.stmt = some countStmt ∨
      e.stmt = some selectStmt → P e) :
    Adds P (setup_test_data D ⟨some session⟩ orgID) := by
  refine Adds.bind (Adds.forCount _ (fun i => ?_) _ _) (fun _ => ?_)
  · exact Adds.bind (Adds.InsertUser D session _ _ _ _ (fun q h => hP q (Or.inl h)))
      (fun _ => Adds.require_NoError P _ _ _)
  · refine Adds.bind (Adds.CountUsersByOrgID D session _ (fun q h => hP q (Or.inr (Or.inl h))))
      (fun r => ?_)
    refine Adds.bind (Adds.require_NoError P _ _ _) (fun _ => ?_)
    refine Adds.bind (Adds.assert_Equal P _ _ _ _) (fun _ => ?_)
    refine Adds.bind (Adds.GetAllUsersByOrgID D session _ (fun q h => hP q (Or.inr (Or.inr h))))
      (fun r2 => ?_)
    refine Adds.bind (Adds.require_NoError P _ _ _) (fun _ => ?_)
    exact Adds.bind (Adds.assert_Len P _ _ _ _) (fun _ => Adds.pure P _)

theorem Adds.after {σ α : Type} {P : Event → Prop} {m : TestM σ α} (h : Adds P m)
    (s : TestState σ) (tr0 : List Event) (ev : Event) (hs : s.w.trace = tr0 ++ [ev]) :
    (m s).1 ≠ Flow.panicked ∧
      ∃ evs, (m s).2.w.trace = tr0 ++ ev :: evs ∧ ∀ e ∈ evs, P e := by
  obtain ⟨hp, evs, htr, hP⟩ := h s
  exact ⟨hp, evs, by simp [htr, hs], hP⟩

theorem delete_by_partition_key_trace {σ : Type} {P : Event → Prop} (env : Env) (D : Driver σ)
    (session : Session) (orgID : String)
    (hP : ∀ e : Event, e.stmt = some countStmt ∨ e.stmt = some selectStmt → P e)
    (s : TestState σ) :
    (delete_by_partition_key env D ⟨some session⟩ orgID s).1 ≠ Flow.panicked ∧
      ∃ evs, (delete_by_partition_key env D ⟨some session⟩ orgID s).2.w.trace =
          s.w.trace ++ Event.exec session ⟨deleteStmt, [.str orgID]⟩
            (D.Exec session ⟨deleteStmt, [.str orgID]⟩ s.w.db).1 :: evs ∧
        ∀ e ∈ evs, P e := by
  simp only [delete_by_partition_key]
  rw [bind_run, call_DeleteUsersByOrgID]
  dsimp only
  refine Adds.after ?_ _ _ _ rfl
  refine Adds.bind (Adds.assert_NoError P _ _ _) (fun _ => ?_)
  refine Adds.bind (Adds.CountUsersByOrgID D session _ (fun q h => hP q (Or.inl h))) (fun r => ?_)
  refine Adds.bind (Adds.require_NoError P _ _ _) (fun _ => ?_)
  have hlast : ∀ c : Int, Adds P (do
      let _ ← (assert.Equal 0 c
        "All users should be deleted when deleting by partition key" [] : TestM σ Bool)
      Pure.pure PUnit.unit) :=
    fun c => Adds.bind (Adds.assert_Equal P _ _ _ _) (fun _ => Adds.pure P _)
  refine Adds.ite _ ?_ (Adds.bind (Adds.Logf P _ _) (fun _ => hlast _))
  refine Adds.bind (Adds.Errorf P _ _) (fun _ => ?_)
  refine Adds.bind (Adds.Logf P _ _) (fun _ => ?_)
  refine Adds.bind (Adds.Logf P _ _) (fun _ => ?_)
  refine Adds.bind (Adds.GetAllUsersByOrgID D session _ (fun q h => hP q (Or.inr h)))
    (fun r2 => ?_)
  exact Adds.ite _ (Adds.bind (Adds.Logf P _ _) (fun _ => hlast _))
    (Adds.bind (Adds.pure P _) (fun _ => hlast _))

/-! ### The scenario as a whole -/

theorem NewScyllaClient_ok {σ : Type} (D : Driver σ) (hosts : List String) (w : World σ)
    (session : Session) (db1 : σ)
    (h : D.CreateSession (clusterOf D hosts) w.db = (.ok session, db1)) :
    NewScyllaClient D hosts w = ((some ⟨some session⟩, none), { w with db := db1 }) := by
  simp only [clusterOf] at h
  simp only [NewScyllaClient, h]

theorem NewScyllaClient_error {σ : Type} (D : Driver σ) (hosts : List String) (w : World σ)
    (cause : GoError) (db1 : σ)
    (h : D.CreateSession (clusterOf D hosts) w.db = (.error cause, db1)) :
    NewScyllaClient D hosts w =
      ((none, some (Errorf_w "failed to create session: " cause)), { w with db := db1 }) := by
  simp only [clusterOf] at h
  simp only [NewScyllaClient, h]

theorem Run_flow {σ : Type} {P : Event → Prop} (name : String) (f : TestM σ Unit)
    (h : Adds P f) (s : TestState σ) :
    ∃ b, (T.Run name f s).1 = .ok b := by
  have hp := (Adds.Run name f h s).1
  rcases hr : T.Run name f s with ⟨fl, s1⟩
  rw [hr] at hp
  simp only [T.Run] at hr
  split at hr
  · simp only [Prod.mk.injEq] at hr
    exact absurd hr.1.symm hp
  · simp only [Prod.mk.injEq] at hr
    exact ⟨_, by rw [← hr.1]⟩

theorem Adds.delete_by_partition_key {σ : Type} (env : Env) (D : Driver σ)
    (session : Session) (orgID : String) :
    Adds (fun _ => True) (delete_by_partition_key env D ⟨some session⟩ orgID) := by
  intro s
  obtain ⟨hp, evs, he, _⟩ := delete_by_partition_key_trace env D session orgID
    (P := fun _ => True) (fun _ _ => trivial) s
  exact ⟨hp, _, he, fun _ _ => trivial⟩

theorem scenario_connected {σ : Type} (env : Env) (D : Driver σ) (db : σ) (session : Session)
    (db1 : σ) (h : D.CreateSession (clusterOf D scenarioHosts) db = (.ok session, db1)) :
    TestDeleteByPartitionKey_ReproducesIssue env D (startState db) =
      (.ok (), { t := (afterDelete env D session db1).t,
                 w := (ScyllaClient.mk (some session)).Close D (afterDelete env D session db1).w }) := by
  have hnew := NewScyllaClient_ok D scenarioHosts ⟨db, []⟩ session db1 h
  simp only [scenarioHosts] at hnew
  obtain ⟨b1, h1⟩ := Run_flow "setup_test_data"
    (setup_test_data D ⟨some session⟩ (orgIDAt env.Now))
    (Adds.setup_test_data D session (orgIDAt env.Now) (P := fun _ => True) (fun _ _ => trivial))
    (connectedState env db1)
  obtain ⟨b2, h2⟩ := Run_flow "delete_by_partition_key"
    (delete_by_partition_key env D ⟨some session⟩ (orgIDAt env.Now))
    (Adds.delete_by_partition_key env D session (orgIDAt env.Now))
    (afterSetup env D session db1)
  simp only [afterDelete]
  simp only [afterSetup] at h2 ⊢
  simp only [TestDeleteByPartitionKey_ReproducesIssue, bind_run, T.Logf, callTotal, startState,
    hnew, require.NoError, assert.NoError, pure_run, deferring, if_true, List.nil_append]
  simp only [connectedState] at h1 h2 ⊢
  rcases hr1 : T.Run "setup_test_data" (setup_test_data D ⟨some session⟩ (orgIDAt env.Now))
    { t := { name := "TestDeleteByPartitionKey_ReproducesIssue", failed := false,
             out := [⟨"TestDeleteByPartitionKey_ReproducesIssue", false,
                      "Running on platform: %s/%s", [.str env.GOOS, .str env.GOARCH]⟩] },
      w := { db := db1, trace := [] } } with ⟨fl1, s1⟩
  rw [hr1] at h1 h2
  simp only at h1 h2
  subst h1
  simp only
  rcases hr2 : T.Run "delete_by_partition_key"
    (delete_by_partition_key env D ⟨some session⟩ (orgIDAt env.Now)) s1 with ⟨fl2, s2⟩
  rw [hr2] at h2
  simp only at h2
  subst h2
  rfl

/-! ### The sub-test `delete_by_partition_key` -/

theorem delete_step_report {σ : Type} (env : Env) (D : Driver σ) (session : Session)
    (orgID : String) (t0 : T) (w : World σ) (delErr : Err) (db1 : σ) (count : Int) (cerr : Err)
    (db2 : σ)
    (hdel : D.Exec session ⟨deleteStmt, [.str orgID]⟩ w.db = (delErr, db1))
    (hcount : D.ScanInt session ⟨countStmt, [.str orgID]⟩ db1 = ((count, cerr), db2)) :
    (delete_by_partition_key env D ⟨some session⟩ orgID ⟨t0, w⟩).1
      = (if cerr.isSome then Flow.failNow else Flow.ok ()) ∧
    (delete_by_partition_key env D ⟨some session⟩ orgID ⟨t0, w⟩).2.t.failed
      = (t0.failed || delErr.isSome || cerr.isSome || decide (count ≠ 0)) ∧
    (delete_by_partition_key env D ⟨some session⟩ orgID ⟨t0, w⟩).2.t.errors
      = t0.errors ++
        (if delErr.isSome then
          [⟨t0.name, true, "DELETE by partition key should not return error", []⟩] else []) ++
        (if cerr.isSome then [⟨t0.name, true, "Failed to count users after deletion", []⟩]
         else if count = 0 then []
         else [⟨t0.name, true, "ISSUE REPRODUCED: DELETE by partition key failed silently", []⟩,
               ⟨t0.name, true, "All users should be deleted when deleting by partition key", []⟩]) ∧
    (delete_by_partition_key env D ⟨some session⟩ orgID ⟨t0, w⟩).2.w.trace
      = w.trace ++
        [Event.exec session ⟨deleteStmt, [.str orgID]⟩ delErr,
         Event.scan session ⟨countStmt, [.str orgID]⟩ count cerr] ++
        (if cerr.isSome then []
         else if count = 0 then []
         else [Event.iter session ⟨selectStmt, [.str orgID]⟩
                (D.Iter session ⟨selectStmt, [.str orgID]⟩ db2).1.rows
                (D.Iter session ⟨selectStmt, [.str orgID]⟩ db2).1.err]) := by
  have hmem : ∀ (c : Int), ¬ c = 0 → ¬ 0 = c := fun c h h1 => h h1.symm
  rcases hit : D.Iter session ⟨selectStmt, [.str orgID]⟩ db2 with ⟨⟨rows, err, cl⟩, db3⟩
  by_cases hc : count = 0
  · cases delErr <;> cases cerr <;>
    simp [delete_by_partition_key, bind_run, pure_run, call_DeleteUsersByOrgID,
      call_CountUsersByOrgID, hdel, hcount, hc, assert.NoError,
      require.NoError, assert.Equal, T.Logf, T.Errorf, T.FailNow, T.errors]
  · cases delErr <;> cases cerr <;> cases err <;>
    simp [delete_by_partition_key, bind_run, pure_run, call_DeleteUsersByOrgID,
      call_CountUsersByOrgID, call_GetAllUsersByOrgID, hdel, hcount, hc, hmem count hc, hit,
      assert.NoError, require.NoError, assert.Equal, T.Logf, T.Errorf, T.FailNow, T.errors]

theorem Run_failed {σ : Type} (name : String) (f : TestM σ Unit) (s : TestState σ)
    (h : (f { t := s.t.sub name, w := s.w }).2.t.failed = true) :
    (T.Run name f s).2.t.failed = true := by
  simp only [T.Run]
  split <;> simp_all

/-- C1: in the step `delete_by_partition_key`, when `DeleteUsersByOrgID` returns
no error and the following `CountUsersByOrgID` returns `(count, nil)`, the step
runs to its end; for `count = 0` it records no failure (it is not marked failed
and gets no failure record), and for `count ≠ 0` it is marked failed and
records the failure "ISSUE REPRODUCED", followed by the failed final
assertion.  What the step records is a function of `count` alone: it is the
same for every result of the diagnostic `GetAllUsersByOrgID` call. -/
theorem delete_step_classification {σ : Type} (env : Env) (D : Driver σ) (session : Session)
    (orgID : String) (t0 : T) (w : World σ) (db1 db2 : σ) (count : Int)
    (hdel : D.Exec session ⟨deleteStmt, [.str orgID]⟩ w.db = (none, db1))
    (hcount : D.ScanInt session ⟨countStmt, [.str orgID]⟩ db1 = ((count, none), db2)) :
    (delete_by_partition_key env D ⟨some session⟩ orgID ⟨t0, w⟩).1 = .ok () ∧
    (delete_by_partition_key env D ⟨some session⟩ orgID ⟨t0, w⟩).2.t.failed
      = (t0.failed || decide (count ≠ 0)) ∧
    (delete_by_partition_key env D ⟨some session⟩ orgID ⟨t0, w⟩).2.t.errors
      = t0.errors ++
        (if count = 0 then []
         else [⟨t0.name, true, "ISSUE REPRODUCED: DELETE by partition key failed silently", []⟩,
               ⟨t0.name, true, "All users should be deleted when deleting by partition key", []⟩]) := by
  have h := delete_step_report env D session orgID t0 w none db1 count none db2 hdel hcount
  exact ⟨by simpa using h.1, by simpa using h.2.1, by simpa using h.2.2.1⟩

theorem delete_step_classification_witness :
    (delete_by_partition_key exampleEnv (faultyDriver false [] [deleteStmt]) ⟨some ⟨0⟩⟩
        "test-org-1700000000" ⟨deleteStepT, ⟨seededStore, []⟩⟩).1 = .ok () ∧
    (delete_by_partition_key exampleEnv (faultyDriver false [] [deleteStmt]) ⟨some ⟨0⟩⟩
        "test-org-1700000000" ⟨deleteStepT, ⟨seededStore, []⟩⟩).2.t.failed
      = (deleteStepT.failed || decide ((3 : Int) ≠ 0)) ∧
    (delete_by_partition_key exampleEnv (faultyDriver false [] [deleteStmt]) ⟨some ⟨0⟩⟩
        "test-org-1700000000" ⟨deleteStepT, ⟨seededStore, []⟩⟩).2.t.errors
      = deleteStepT.errors ++
        (if (3 : Int) = 0 then []
         else [⟨deleteStepT.name, true,
                 "ISSUE REPRODUCED: DELETE by partition key failed silently", []⟩,
               ⟨deleteStepT.name, true,
                 "All users should be deleted when deleting by partition key", []⟩]) :=
  delete_step_classification exampleEnv (faultyDriver false [] [deleteStmt]) ⟨0⟩
    "test-org-1700000000" deleteStepT ⟨seededStore, []⟩ seededStore seededStore 3 rfl rfl

/-- C2: what the code does where it breaks the claim.  With a store whose
DELETE times out and that still holds the three seeded rows,
`DeleteUsersByOrgID` returns the timeout error; the step records
"DELETE by partition key should not return error" and, the check being an
`assert`, goes on: it counts 3 rows and reports
"ISSUE REPRODUCED: DELETE by partition key failed silently" for a DELETE that
failed with an error, followed by the failed final assertion. -/
theorem delete_timeout_reported_as_silent_failure :
    (∃ w1, (ScyllaClient.mk (some ⟨0⟩)).DeleteUsersByOrgID (faultyDriver false [deleteStmt] [])
        "test-org-1700000000" ⟨seededStore, []⟩ = some (some errTimeout, w1)) ∧
    (∃ w2, (ScyllaClient.mk (some ⟨0⟩)).CountUsersByOrgID (faultyDriver false [deleteStmt] [])
        "test-org-1700000000" ⟨seededStore, []⟩ = some ((3, none), w2)) ∧
    (delete_by_partition_key exampleEnv (faultyDriver false [deleteStmt] []) ⟨some ⟨0⟩⟩
        "test-org-1700000000" ⟨deleteStepT, ⟨seededStore, []⟩⟩).2.t.failed = true ∧
    (delete_by_partition_key exampleEnv (faultyDriver false [deleteStmt] []) ⟨some ⟨0⟩⟩
        "test-org-1700000000" ⟨deleteStepT, ⟨seededStore, []⟩⟩).2.t.errors =
      [⟨"TestDeleteByPartitionKey_ReproducesIssue/delete_by_partition_key", true,
          "DELETE by partition key should not return error", []⟩,
       ⟨"TestDeleteByPartitionKey_ReproducesIssue/delete_by_partition_key", true,
          "ISSUE REPRODUCED: DELETE by partition key failed silently", []⟩,
       ⟨"TestDeleteByPartitionKey_ReproducesIssue/delete_by_partition_key", true,
          "All users should be deleted when deleting by partition key", []⟩] := by
  have h := delete_step_report exampleEnv (faultyDriver false [deleteStmt] []) ⟨0⟩
    "test-org-1700000000" deleteStepT ⟨seededStore, []⟩ (some errTimeout) seededStore 3 none
    seededStore rfl rfl
  refine ⟨⟨_, rfl⟩, ⟨_, rfl⟩, ?_, ?_⟩
  · rw [h.2.1]
    rfl
  · rw [h.2.2.1]
    rfl

/-! ### The sub-test `setup_test_data` -/

theorem forUpTo_1_3 {σ : Type} (body : Nat → TestM σ Unit) :
    forUpTo 1 3 body = (body 1 >>= fun _ => body 2 >>= fun _ => body 3 >>= fun _ => Pure.pure ()) :=
  rfl

theorem setup_report {σ : Type} (D : Driver σ) (session : Session) (orgID : String) (t0 : T)
    (w : World σ) (e1 e2 e3 cerr : Err) (count : Int) (it : Iter) (d1 d2 d3 d4 d5 : σ)
    (h1 : D.Exec session (seedQuery orgID 1) w.db = (e1, d1))
    (h2 : D.Exec session (seedQuery orgID 2) d1 = (e2, d2))
    (h3 : D.Exec session (seedQuery orgID 3) d2 = (e3, d3))
    (hc : D.ScanInt session ⟨countStmt, [.str orgID]⟩ d3 = ((count, cerr), d4))
    (hit : D.Iter session ⟨selectStmt, [.str orgID]⟩ d4 = (it, d5)) :
    (setup_test_data D ⟨some session⟩ orgID ⟨t0, w⟩).2.t.failed
      = (t0.failed || e1.isSome || e2.isSome || e3.isSome || cerr.isSome || decide (count ≠ 3)
          || it.err.isSome || decide (it.rows.length ≠ 3)) ∧
    (setup_test_data D ⟨some session⟩ orgID ⟨t0, w⟩).2.w.trace
      = w.trace ++
        [Event.exec session (seedQuery orgID 1) e1,
         Event.exec session (seedQuery orgID 2) e2,
         Event.exec session (seedQuery orgID 3) e3,
         Event.scan session ⟨countStmt, [.str orgID]⟩ count cerr,
         Event.iter session ⟨selectStmt, [.str orgID]⟩ it.rows it.err].take
          (([e1, e2, e3, cerr].takeWhile (fun e => e.isNone)).length + 1) ∧
    (e1 = none → e2 = none → e3 = none → cerr = none →
      (setup_test_data D ⟨some session⟩ orgID ⟨t0, w⟩).2.w.db = d5) := by
  simp only [seedQuery] at h1 h2 h3
  have hmem : ∀ (c : Int), ¬ c = 3 → ¬ 3 = c := fun c h h1 => h h1.symm
  simp only [setup_test_data, forUpTo_1_3, bind_run, call_InsertUser, h1]
  cases e1 with
  | some e =>
    simp [require.NoError, assert.NoError, bind_run, pure_run, T.Errorf, T.FailNow, seedQuery]
  | none =>
    simp only [require.NoError, assert.NoError, bind_run, pure_run, if_true, call_InsertUser, h2]
    cases e2 with
    | some e => simp [bind_run, pure_run, T.Errorf, T.FailNow, seedQuery]
    | none =>
      simp only [bind_run, pure_run, if_true, call_InsertUser, h3]
      cases e3 with
      | some e => simp [bind_run, pure_run, T.Errorf, T.FailNow, seedQuery]
      | none =>
        simp only [bind_run, pure_run, if_true, call_CountUsersByOrgID, hc]
        cases cerr with
        | some e => simp [bind_run, pure_run, T.Errorf, T.FailNow, seedQuery]
        | none =>
          rcases it with ⟨rows, err, cl⟩
          by_cases hcount : count = 3 <;> cases err <;> by_cases hl : rows.length = 3 <;>
          simp [bind_run, pure_run, T.Errorf, T.FailNow, call_GetAllUsersByOrgID, hit,
            assert.Equal, assert.Len, hcount, hmem count, hl, seedQuery]

/-! ### The requests of a whole run -/

theorem Run_world {σ : Type} (name : String) (f : TestM σ Unit) (s : TestState σ) :
    (T.Run name f s).2.w = (f { t := s.t.sub name, w := s.w }).2.w := by
  simp only [T.Run]
  split <;> simp_all

theorem Run_keeps_failed {σ : Type} (name : String) (f : TestM σ Unit) (s : TestState σ)
    (h : s.t.failed = true) : (T.Run name f s).2.t.failed = true := by
  simp only [T.Run]
  split <;> simp_all

theorem stmts_ne :
    insertStmt ≠ deleteStmt ∧ countStmt ≠ deleteStmt ∧ selectStmt ≠ deleteStmt := by
  decide

theorem scenario_trace {σ : Type} (env : Env) (D : Driver σ) (db : σ) (session : Session)
    (db1 : σ) (h : D.CreateSession (clusterOf D scenarioHosts) db = (.ok session, db1)) :
    ∃ evs1 evs2 delErr,
      (TestDeleteByPartitionKey_ReproducesIssue env D (startState db)).2.w.trace =
        evs1 ++ Event.exec session ⟨deleteStmt, [.str (orgIDAt env.Now)]⟩ delErr :: evs2
          ++ [Event.close session] ∧
      (∀ e ∈ evs1, e.stmt = some insertStmt ∨ e.stmt = some countStmt ∨
        e.stmt = some selectStmt) ∧
      (∀ e ∈ evs2, e.stmt = some countStmt ∨ e.stmt = some selectStmt) := by
  rw [scenario_connected env D db session db1 h]
  obtain ⟨_, evs1, h1, hP1⟩ := Adds.Run "setup_test_data" _
    (Adds.setup_test_data D session (orgIDAt env.Now)
      (P := fun e => e.stmt = some insertStmt ∨ e.stmt = some countStmt ∨
        e.stmt = some selectStmt) (fun _ he => he)) (connectedState env db1)
  obtain ⟨_, evs2, h2, hP2⟩ := delete_by_partition_key_trace env D session (orgIDAt env.Now)
    (P := fun e => e.stmt = some countStmt ∨ e.stmt = some selectStmt) (fun _ he => he)
    { t := (afterSetup env D session db1).t.sub "delete_by_partition_key",
      w := (afterSetup env D session db1).w }
  refine ⟨evs1, evs2,
    (D.Exec session ⟨deleteStmt, [.str (orgIDAt env.Now)]⟩ (afterSetup env D session db1).w.db).1,
    ?_, hP1, hP2⟩
  simp only [ScyllaClient.Close, afterDelete, Run_world, h2]
  simp only [afterSetup, h1]
  simp only [connectedState, List.nil_append, List.append_assoc, List.cons_append]

theorem scenario_delete_once {σ : Type} (env : Env) (D : Driver σ) (db : σ) (session : Session)
    (db1 : σ) (h : D.CreateSession (clusterOf D scenarioHosts) db = (.ok session, db1)) :
    ∃ delErr,
      (TestDeleteByPartitionKey_ReproducesIssue env D (startState db)).2.w.trace.filter
          Event.isDelete =
        [Event.exec session ⟨deleteStmt, [.str (orgIDAt env.Now)]⟩ delErr] := by
  obtain ⟨evs1, evs2, delErr, htr, h1, h2⟩ := scenario_trace env D db session db1 h
  refine ⟨delErr, ?_⟩
  have hne := stmts_ne
  have hf1 : evs1.filter Event.isDelete = [] := by
    rw [List.filter_eq_nil_iff]
    intro e he
    rcases h1 e he with h | h | h <;> simp [Event.isDelete, h, hne.1, hne.2.1, hne.2.2]
  have hf2 : evs2.filter Event.isDelete = [] := by
    rw [List.filter_eq_nil_iff]
    intro e he
    rcases h2 e he with h | h <;> simp [Event.isDelete, h, hne.2.1, hne.2.2]
  rw [htr]
  simp [List.filter_append, List.filter_cons, hf1, hf2, Event.isDelete, Event.stmt]

theorem scenario_failed_of_setup {σ : Type} (env : Env) (D : Driver σ) (db : σ)
    (session : Session) (db1 : σ)
    (h : D.CreateSession (clusterOf D scenarioHosts) db = (.ok session, db1))
    (hf : (setup_test_data D ⟨some session⟩ (orgIDAt env.Now)
      { t := (connectedState env db1).t.sub "setup_test_data",
        w := (connectedState env db1).w }).2.t.failed = true) :
    (TestDeleteByPartitionKey_ReproducesIssue env D (startState db)).2.t.failed = true := by
  rw [scenario_connected env D db session db1 h]
  simp only [afterDelete]
  exact Run_keeps_failed _ _ _ (Run_failed _ _ _ hf)

/-! ### Seed failures -/

/-- C3, as amended: in every run that connected and in which a seed step fails
(an `InsertUser` call returns an error, the seed `CountUsersByOrgID` or
`GetAllUsersByOrgID` returns an error, or the seed count or the number of
listed rows is not 3), the scenario is marked failed.  An error returned by a
seed call ends the seed sub-test at once: the requests of the sub-test are
those up to and including the first call that returned an error.  A seed count
or a number of listed rows other than 3, with no seed call returning an error,
is recorded without halting: the scenario goes on to the operation under test
and invokes `DeleteUsersByOrgID`, exactly once. -/
theorem seed_failure_marks_failed {σ : Type} (env : Env) (D : Driver σ)
    (db : σ) (session : Session) (db1 : σ) (e1 e2 e3 cerr : Err) (count : Int) (it : Iter)
    (d1 d2 d3 d4 d5 : σ)
    (hconn : D.CreateSession (clusterOf D scenarioHosts) db = (.ok session, db1))
    (h1 : D.Exec session (seedQuery (orgIDAt env.Now) 1) db1 = (e1, d1))
    (h2 : D.Exec session (seedQuery (orgIDAt env.Now) 2) d1 = (e2, d2))
    (h3 : D.Exec session (seedQuery (orgIDAt env.Now) 3) d2 = (e3, d3))
    (hc : D.ScanInt session ⟨countStmt, [.str (orgIDAt env.Now)]⟩ d3 = ((count, cerr), d4))
    (hit : D.Iter session ⟨selectStmt, [.str (orgIDAt env.Now)]⟩ d4 = (it, d5))
    (hfail : e1 ≠ none ∨ e2 ≠ none ∨ e3 ≠ none ∨ cerr ≠ none ∨ it.Close.1 ≠ none ∨
      count ≠ 3 ∨ it.rows.length ≠ 3) :
    (TestDeleteByPartitionKey_ReproducesIssue env D (startState db)).2.t.failed = true ∧
    (∀ (t0 : T) (tr : List Event),
      (setup_test_data D ⟨some session⟩ (orgIDAt env.Now) ⟨t0, ⟨db1, tr⟩⟩).2.w.trace
        = tr ++
          [Event.exec session (seedQuery (orgIDAt env.Now) 1) e1,
           Event.exec session (seedQuery (orgIDAt env.Now) 2) e2,
           Event.exec session (seedQuery (orgIDAt env.Now) 3) e3,
           Event.scan session ⟨countStmt, [.str (orgIDAt env.Now)]⟩ count cerr,
           Event.iter session ⟨selectStmt, [.str (orgIDAt env.Now)]⟩ it.rows it.err].take
            (([e1, e2, e3, cerr].takeWhile (fun e => e.isNone)).length + 1)) ∧
    (e1 = none → e2 = none → e3 = none → cerr = none → it.Close.1 = none →
      ∃ delErr,
        (TestDeleteByPartitionKey_ReproducesIssue env D (startState db)).2.w.trace.filter
            Event.isDelete =
          [Event.exec session ⟨deleteStmt, [.str (orgIDAt env.Now)]⟩ delErr]) := by
  refine ⟨?_, fun t0 tr => (setup_report D session (orgIDAt env.Now) t0 ⟨db1, tr⟩ e1 e2 e3
      cerr count it d1 d2 d3 d4 d5 h1 h2 h3 hc hit).2.1,
    fun _ _ _ _ _ => scenario_delete_once env D db session db1 hconn⟩
  apply scenario_failed_of_setup env D db session db1 hconn
  rw [(setup_report D session (orgIDAt env.Now) _ _ e1 e2 e3 cerr count it d1 d2 d3 d4 d5
    h1 h2 h3 hc hit).1]
  simp only [Iter.Close] at hfail
  rcases hfail with h | h | h | h | h | h | h
  · cases e1 <;> simp_all
  · cases e2 <;> simp_all
  · cases e3 <;> simp_all
  · cases cerr <;> simp_all
  · cases hi : it.err <;> simp_all
  · simp [h]
  · simp [h]

theorem seed_failure_marks_failed_witness :
    (TestDeleteByPartitionKey_ReproducesIssue exampleEnv
        (faultyDriver false [insertStmt] []) (startState emptyStore)).2.t.failed = true ∧
    (∀ (t0 : T) (tr : List Event),
      (setup_test_data (faultyDriver false [insertStmt] []) ⟨some ⟨0⟩⟩ (orgIDAt exampleEnv.Now)
          ⟨t0, ⟨emptyStore, tr⟩⟩).2.w.trace
        = tr ++
          [Event.exec ⟨0⟩ (seedQuery (orgIDAt exampleEnv.Now) 1) (some errTimeout),
           Event.exec ⟨0⟩ (seedQuery (orgIDAt exampleEnv.Now) 2) (some errTimeout),
           Event.exec ⟨0⟩ (seedQuery (orgIDAt exampleEnv.Now) 3) (some errTimeout),
           Event.scan ⟨0⟩ ⟨countStmt, [.str (orgIDAt exampleEnv.Now)]⟩ 0 none,
           Event.iter ⟨0⟩ ⟨selectStmt, [.str (orgIDAt exampleEnv.Now)]⟩
             (Iter.mk [] none false).rows (Iter.mk [] none false).err].take
            (([some errTimeout, some errTimeout, some errTimeout, none].takeWhile
              (fun e => e.isNone)).length + 1)) ∧
    ((some errTimeout : Err) = none → (some errTimeout : Err) = none →
      (some errTimeout : Err) = none → (none : Err) = none →
      (Iter.mk [] none false).Close.1 = none →
      ∃ delErr,
        (TestDeleteByPartitionKey_ReproducesIssue exampleEnv
            (faultyDriver false [insertStmt] []) (startState emptyStore)).2.w.trace.filter
            Event.isDelete =
          [Event.exec ⟨0⟩ ⟨deleteStmt, [.str (orgIDAt exampleEnv.Now)]⟩ delErr]) :=
  seed_failure_marks_failed exampleEnv (faultyDriver false [insertStmt] [])
    emptyStore ⟨0⟩ emptyStore (some errTimeout) (some errTimeout) (some errTimeout) none 0
    ⟨[], none, false⟩ emptyStore emptyStore emptyStore emptyStore emptyStore
    rfl rfl rfl rfl rfl rfl (Or.inl (by simp))

/-- C3 as stated fails: with a store that acknowledges every INSERT and keeps
none of the rows, no seed call returns an error, the seed count is 0 and not
3, and the run still sends the DELETE by partition key: its requests are the
three INSERTs, the count answered 0, the listing of no rows, the DELETE, the
second count, and the close. -/
theorem seed_failure_does_not_halt_counterexample :
    (TestDeleteByPartitionKey_ReproducesIssue exampleEnv
        (faultyDriver false [] [insertStmt]) (startState emptyStore)).2.w.trace =
      [Event.exec ⟨0⟩ (seedQuery "test-org-1700000000" 1) none,
       Event.exec ⟨0⟩ (seedQuery "test-org-1700000000" 2) none,
       Event.exec ⟨0⟩ (seedQuery "test-org-1700000000" 3) none,
       Event.scan ⟨0⟩ ⟨countStmt, [.str "test-org-1700000000"]⟩ 0 none,
       Event.iter ⟨0⟩ ⟨selectStmt, [.str "test-org-1700000000"]⟩ [] none,
       Event.exec ⟨0⟩ ⟨deleteStmt, [.str "test-org-1700000000"]⟩ none,
       Event.scan ⟨0⟩ ⟨countStmt, [.str "test-org-1700000000"]⟩ 0 none,
       Event.close ⟨0⟩] ∧
    (TestDeleteByPartitionKey_ReproducesIssue exampleEnv
        (faultyDriver false [] [insertStmt]) (startState emptyStore)).2.w.trace.any
      Event.isDelete = true := by
  have htrace : (TestDeleteByPartitionKey_ReproducesIssue exampleEnv
        (faultyDriver false [] [insertStmt]) (startState emptyStore)).2.w.trace =
      [Event.exec ⟨0⟩ (seedQuery "test-org-1700000000" 1) none,
       Event.exec ⟨0⟩ (seedQuery "test-org-1700000000" 2) none,
       Event.exec ⟨0⟩ (seedQuery "test-org-1700000000" 3) none,
       Event.scan ⟨0⟩ ⟨countStmt, [.str "test-org-1700000000"]⟩ 0 none,
       Event.iter ⟨0⟩ ⟨selectStmt, [.str "test-org-1700000000"]⟩ [] none,
       Event.exec ⟨0⟩ ⟨deleteStmt, [.str "test-org-1700000000"]⟩ none,
       Event.scan ⟨0⟩ ⟨countStmt, [.str "test-org-1700000000"]⟩ 0 none,
       Event.close ⟨0⟩] := by
    rw [scenario_connected exampleEnv (faultyDriver false [] [insertStmt]) emptyStore ⟨0⟩
      emptyStore rfl]
    have hs := setup_report (faultyDriver false [] [insertStmt]) ⟨0⟩ "test-org-1700000000"
      ((connectedState exampleEnv emptyStore).t.sub "setup_test_data") ⟨emptyStore, []⟩
      none none none none 0 ⟨[], none, false⟩ emptyStore emptyStore emptyStore emptyStore
      emptyStore rfl rfl rfl rfl rfl
    have hw : (afterSetup exampleEnv (faultyDriver false [] [insertStmt]) ⟨0⟩ emptyStore).w =
        ⟨emptyStore,
          [Event.exec ⟨0⟩ (seedQuery "test-org-1700000000" 1) none,
           Event.exec ⟨0⟩ (seedQuery "test-org-1700000000" 2) none,
           Event.exec ⟨0⟩ (seedQuery "test-org-1700000000" 3) none,
           Event.scan ⟨0⟩ ⟨countStmt, [.str "test-org-1700000000"]⟩ 0 none,
           Event.iter ⟨0⟩ ⟨selectStmt, [.str "test-org-1700000000"]⟩ [] none]⟩ := by
      have hd := hs.2.2 rfl rfl rfl rfl
      have ht := hs.2.1
      simp only [afterSetup, Run_world]
      rcases hr : (setup_test_data (faultyDriver false [] [insertStmt]) ⟨some ⟨0⟩⟩
        (orgIDAt exampleEnv.Now)
        ⟨(connectedState exampleEnv emptyStore).t.sub "setup_test_data",
          (connectedState exampleEnv emptyStore).w⟩).2.w with ⟨rdb, rtr⟩
      have hr2 : (setup_test_data (faultyDriver false [] [insertStmt]) ⟨some ⟨0⟩⟩
        "test-org-1700000000"
        ⟨(connectedState exampleEnv emptyStore).t.sub "setup_test_data",
          ⟨emptyStore, []⟩⟩).2.w = ⟨rdb, rtr⟩ := hr
      rw [hr2] at hd ht
      simp only at hd ht
      rw [hd, ht]
      rfl
    have hdl := (delete_step_report exampleEnv (faultyDriver false [] [insertStmt]) ⟨0⟩
      "test-org-1700000000"
      ((afterSetup exampleEnv (faultyDriver false [] [insertStmt]) ⟨0⟩ emptyStore).t.sub
        "delete_by_partition_key")
      (afterSetup exampleEnv (faultyDriver false [] [insertStmt]) ⟨0⟩ emptyStore).w
      none emptyStore 0 none emptyStore (by rw [hw]; rfl) rfl).2.2.2
    simp only [afterDelete, Run_world, ScyllaClient.Close]
    have hdl2 : (delete_by_partition_key exampleEnv (faultyDriver false [] [insertStmt])
        ⟨some ⟨0⟩⟩ (orgIDAt exampleEnv.Now)
        ⟨(afterSetup exampleEnv (faultyDriver false [] [insertStmt]) ⟨0⟩ emptyStore).t.sub
          "delete_by_partition_key",
         (afterSetup exampleEnv (faultyDriver false [] [insertStmt]) ⟨0⟩ emptyStore).w⟩).2.w.trace
        = _ := hdl
    rw [hdl2, hw]
    rfl
  refine ⟨htrace, ?_⟩
  rw [htrace]
  rfl

/-! ### Connecting and closing -/

/-- C8: in every run in which `NewScyllaClient` succeeds, whatever the store
answers afterwards (success, a fatal failure in either sub-test, a recorded
assertion failure, an error from any facade call), the test function runs to
its end and the last thing the run does is to close the session: the state the
run leaves behind the driver is the result of the driver's `Close` of that
session on the state that the last sub-test left, and the record of the run is
the requests of the sub-tests followed by the close.  `Close` on a client that
holds a session calls the driver's `Close` on that session, and `Close` on a
client whose session is nil does nothing. -/
theorem session_closed_on_every_exit {σ : Type} (env : Env) (D : Driver σ) (db : σ)
    (session : Session) (db1 : σ)
    (hconn : D.CreateSession (clusterOf D scenarioHosts) db = (.ok session, db1)) :
    (TestDeleteByPartitionKey_ReproducesIssue env D (startState db)).1 = .ok () ∧
    (∃ reqs, (TestDeleteByPartitionKey_ReproducesIssue env D (startState db)).2.w.trace
        = reqs ++ [Event.close session] ∧ ∀ e ∈ reqs, e.isQuery = true) ∧
    (∀ w : World σ, (ScyllaClient.mk none).Close D w = w) ∧
    (TestDeleteByPartitionKey_ReproducesIssue env D (startState db)).2.w
      = { db := D.Close session (afterDelete env D session db1).w.db,
          trace := (afterDelete env D session db1).w.trace ++ [Event.close session] } ∧
    (∀ w : World σ, (ScyllaClient.mk (some session)).Close D w
      = { db := D.Close session w.db, trace := w.trace ++ [Event.close session] }) := by
  refine ⟨by rw [scenario_connected env D db session db1 hconn], ?_, fun _ => rfl,
    by rw [scenario_connected env D db session db1 hconn]; rfl, fun _ => rfl⟩
  obtain ⟨evs1, evs2, delErr, htr, h1, h2⟩ := scenario_trace env D db session db1 hconn
  refine ⟨_, htr, ?_⟩
  intro e he
  rcases List.mem_append.mp he with h | h
  · rcases h1 e h with h | h | h <;> simp [Event.isQuery, h]
  · rcases List.mem_cons.mp h with h | h
    · simp [h, Event.isQuery, Event.stmt]
    · rcases h2 e h with h | h <;> simp [Event.isQuery, h]

theorem session_closed_on_every_exit_witness :
    (TestDeleteByPartitionKey_ReproducesIssue exampleEnv sessionDriver (startState [])).1
      = .ok () ∧
    (∃ reqs, (TestDeleteByPartitionKey_ReproducesIssue exampleEnv sessionDriver
          (startState [])).2.w.trace
        = reqs ++ [Event.close ⟨0⟩] ∧ ∀ e ∈ reqs, e.isQuery = true) ∧
    (∀ w : World (List Session), (ScyllaClient.mk none).Close sessionDriver w = w) ∧
    (TestDeleteByPartitionKey_ReproducesIssue exampleEnv sessionDriver (startState [])).2.w
      = { db := sessionDriver.Close ⟨0⟩ (afterDelete exampleEnv sessionDriver ⟨0⟩ [⟨0⟩]).w.db,
          trace := (afterDelete exampleEnv sessionDriver ⟨0⟩ [⟨0⟩]).w.trace
            ++ [Event.close ⟨0⟩] } ∧
    (∀ w : World (List Session), (ScyllaClient.mk (some ⟨0⟩)).Close sessionDriver w
      = { db := sessionDriver.Close ⟨0⟩ w.db, trace := w.trace ++ [Event.close ⟨0⟩] }) :=
  session_closed_on_every_exit exampleEnv sessionDriver [] ⟨0⟩ [⟨0⟩] rfl

/-- C9: for every host list, `NewScyllaClient` returns a nil client exactly
when session creation fails; it then returns an error that wraps the cause, and
otherwise it returns a client holding the session and a nil error; it makes no
request.  In every run of the scenario in which it fails, the test stops there
with the failure "Failed to connect to ScyllaDB": no request is made through
any session, so no row is written. -/
theorem connect_failure_stops_at_init {σ : Type} (D : Driver σ) (hosts : List String)
    (w : World σ) :
    ((NewScyllaClient D hosts w).1.1 = none ↔
      ∃ cause, (D.CreateSession (clusterOf D hosts) w.db).1 = .error cause) ∧
    (∀ cause, (D.CreateSession (clusterOf D hosts) w.db).1 = .error cause →
      (NewScyllaClient D hosts w).1 = (none, some (Errorf_w "failed to create session: " cause)) ∧
      (Errorf_w "failed to create session: " cause).Unwrap = some cause) ∧
    (∀ session, (D.CreateSession (clusterOf D hosts) w.db).1 = .ok session →
      (NewScyllaClient D hosts w).1 = (some ⟨some session⟩, none)) ∧
    (NewScyllaClient D hosts w).2.trace = w.trace ∧
    (∀ (env : Env) (db : σ) (cause : GoError),
      (D.CreateSession (clusterOf D scenarioHosts) db).1 = .error cause →
      TestDeleteByPartitionKey_ReproducesIssue env D (startState db) =
        (.failNow,
          { t := { name := "TestDeleteByPartitionKey_ReproducesIssue", failed := true,
                   out := [⟨"TestDeleteByPartitionKey_ReproducesIssue", false,
                            "Running on platform: %s/%s", [.str env.GOOS, .str env.GOARCH]⟩,
                           ⟨"TestDeleteByPartitionKey_ReproducesIssue", true,
                            "Failed to connect to ScyllaDB", []⟩] },
            w := { db := (D.CreateSession (clusterOf D scenarioHosts) db).2, trace := [] } })) := by
  rcases hc : D.CreateSession (clusterOf D hosts) w.db with ⟨r, db1⟩
  refine ⟨?_, ?_, ?_, ?_, ?_⟩
  · cases r with
    | error cause => simp [NewScyllaClient_error D hosts w cause db1 hc]
    | ok session => simp [NewScyllaClient_ok D hosts w session db1 hc]
  · intro cause h
    simp only at h
    subst h
    exact ⟨by rw [NewScyllaClient_error D hosts w cause db1 hc], rfl⟩
  · intro session h
    simp only at h
    subst h
    rw [NewScyllaClient_ok D hosts w session db1 hc]
  · cases r with
    | error cause => rw [NewScyllaClient_error D hosts w cause db1 hc]
    | ok session => rw [NewScyllaClient_ok D hosts w session db1 hc]
  · intro env db cause h
    rcases hc2 : D.CreateSession (clusterOf D scenarioHosts) db with ⟨r2, db2⟩
    rw [hc2] at h
    simp only at h
    subst h
    have hnew := NewScyllaClient_error D scenarioHosts ⟨db, []⟩ cause db2 hc2
    simp only [scenarioHosts] at hnew
    simp [TestDeleteByPartitionKey_ReproducesIssue, bind_run, T.Logf, callTotal, startState,
      hnew, require.NoError, assert.NoError, pure_run, T.Errorf, T.FailNow]

theorem connect_failure_stops_at_init_witness :
    (NewScyllaClient (faultyDriver true [] []) scenarioHosts ⟨emptyStore, []⟩).1 =
      (none, some (GoError.wrap "failed to create session: gocql: unable to create session"
        (.leaf "gocql: unable to create session"))) ∧
    (TestDeleteByPartitionKey_ReproducesIssue exampleEnv (faultyDriver true [] [])
        (startState emptyStore)).2.w.trace = [] :=
  ⟨((connect_failure_stops_at_init (faultyDriver true [] []) scenarioHosts
      ⟨emptyStore, []⟩).2.1 _ rfl).1,
   by rw [(connect_failure_stops_at_init (faultyDriver true [] []) scenarioHosts
      ⟨emptyStore, []⟩).2.2.2.2 exampleEnv emptyStore _ rfl]⟩

/-! ### The reference store -/

theorem upsertRow_fresh (r : StoredRow) (rows : List StoredRow)
    (h : ∀ x ∈ rows, ¬ (x.org_id = r.org_id ∧ x.user_id = r.user_id)) :
    upsertRow r rows = rows ++ [r] := by
  induction rows with
  | nil => rfl
  | cons x xs ih =>
    have hx := h x (List.mem_cons_self x xs)
    simp only [upsertRow, hx, if_false, List.cons_append]
    rw [ih (fun y hy => h y (List.mem_cons_of_mem x hy))]

theorem ref_insert (session : Session) (org user data : String) (version : Int) (db : RefDB) :
    refDriver.Exec session ⟨insertStmt, [.str org, .str user, .str data, .int version]⟩ db =
      (none, ⟨upsertRow ⟨org, user, data, version, db.clock⟩ db.rows, db.clock + 1⟩) := rfl

theorem ref_delete (session : Session) (org : String) (db : RefDB) :
    refDriver.Exec session ⟨deleteStmt, [.str org]⟩ db =
      (none, ⟨db.rows.filter (fun r => r.org_id ≠ org), db.clock⟩) := rfl

theorem ref_count (session : Session) (org : String) (db : RefDB) :
    refDriver.ScanInt session ⟨countStmt, [.str org]⟩ db =
      ((((db.partition org).length : Int), none), db) := rfl

theorem ref_select (session : Session) (org : String) (db : RefDB) :
    refDriver.Iter session ⟨selectStmt, [.str org]⟩ db =
      (⟨(db.partition org).map (fun r => ⟨r.user_id, r.user_data, r.version⟩), none, false⟩,
        db) := rfl

theorem seed_on_fresh (org : String) (db : RefDB)
    (hfresh : db.partition org = []) :
    upsertRow ⟨org, "user-3", "\x7b\"name\":\"User3\"\x7d", 1, db.clock + 1 + 1⟩
      (upsertRow ⟨org, "user-2", "\x7b\"name\":\"User2\"\x7d", 1, db.clock + 1⟩
        (upsertRow ⟨org, "user-1", "\x7b\"name\":\"User1\"\x7d", 1, db.clock⟩ db.rows))
      = db.rows ++ seedRows org db.clock := by
  have hf : ∀ x ∈ db.rows, x.org_id ≠ org := by
    intro x hx hx2
    have : x ∈ db.partition org := List.mem_filter.mpr ⟨hx, by simpa using hx2⟩
    rw [hfresh] at this
    exact absurd this (List.not_mem_nil x)
  have e1 : upsertRow ⟨org, "user-1", "\x7b\"name\":\"User1\"\x7d", 1, db.clock⟩ db.rows
      = db.rows ++ [⟨org, "user-1", "\x7b\"name\":\"User1\"\x7d", 1, db.clock⟩] :=
    upsertRow_fresh _ db.rows (fun x hx h => hf x hx h.1)
  rw [e1]
  have e2 : upsertRow ⟨org, "user-2", "\x7b\"name\":\"User2\"\x7d", 1, db.clock + 1⟩
      (db.rows ++ [⟨org, "user-1", "\x7b\"name\":\"User1\"\x7d", 1, db.clock⟩])
      = db.rows ++ [⟨org, "user-1", "\x7b\"name\":\"User1\"\x7d", 1, db.clock⟩]
          ++ [⟨org, "user-2", "\x7b\"name\":\"User2\"\x7d", 1, db.clock + 1⟩] := by
    apply upsertRow_fresh
    intro x hx h
    rcases List.mem_append.mp hx with hx | hx
    · exact hf x hx h.1
    · simp only [List.mem_singleton] at hx
      subst hx
      simp at h
  rw [e2]
  have e3 : upsertRow ⟨org, "user-3", "\x7b\"name\":\"User3\"\x7d", 1, db.clock + 1 + 1⟩
      (db.rows ++ [⟨org, "user-1", "\x7b\"name\":\"User1\"\x7d", 1, db.clock⟩]
          ++ [⟨org, "user-2", "\x7b\"name\":\"User2\"\x7d", 1, db.clock + 1⟩])
      = db.rows ++ [⟨org, "user-1", "\x7b\"name\":\"User1\"\x7d", 1, db.clock⟩]
          ++ [⟨org, "user-2", "\x7b\"name\":\"User2\"\x7d", 1, db.clock + 1⟩]
          ++ [⟨org, "user-3", "\x7b\"name\":\"User3\"\x7d", 1, db.clock + 1 + 1⟩] := by
    apply upsertRow_fresh
    intro x hx h
    rcases List.mem_append.mp hx with hx | hx
    · rcases List.mem_append.mp hx with hx | hx
      · exact hf x hx h.1
      · simp only [List.mem_singleton] at hx
        subst hx
        simp at h
    · simp only [List.mem_singleton] at hx
      subst hx
      simp at h
  rw [e3]
  simp [seedRows]

theorem partition_seeded (org : String) (db : RefDB) (c k : Nat)
    (hfresh : db.partition org = []) :
    (RefDB.mk (db.rows ++ seedRows org c) k).partition org = seedRows org c := by
  simp only [RefDB.partition] at hfresh ⊢
  simp [List.filter_append, hfresh, seedRows]

theorem delete_seeded (org : String) (db : RefDB) (hfresh : db.partition org = []) :
    (db.rows ++ seedRows org db.clock).filter (fun r => r.org_id ≠ org) = db.rows := by
  simp only [RefDB.partition, List.filter_eq_nil_iff] at hfresh
  rw [List.filter_append]
  have h1 : db.rows.filter (fun r => decide (r.org_id ≠ org)) = db.rows := by
    rw [List.filter_eq_self]
    intro x hx
    simpa using hfresh x hx
  rw [h1]
  simp [seedRows]

theorem fmtInt_seed :
    fmtInt ((1 : Nat) : Int) = "1" ∧ fmtInt ((2 : Nat) : Int) = "2" ∧
      fmtInt ((3 : Nat) : Int) = "3" := ⟨rfl, rfl, rfl⟩

theorem setup_ref (session : Session) (org : String) (t0 : T) (db : RefDB) (tr : List Event)
    (hfresh : db.partition org = []) :
    setup_test_data refDriver ⟨some session⟩ org ⟨t0, ⟨db, tr⟩⟩ =
      (.ok (), ⟨t0, ⟨⟨db.rows ++ seedRows org db.clock, db.clock + 3⟩,
        tr ++ [Event.exec session (seedQuery org 1) none,
               Event.exec session (seedQuery org 2) none,
               Event.exec session (seedQuery org 3) none,
               Event.scan session ⟨countStmt, [.str org]⟩ 3 none,
               Event.iter session ⟨selectStmt, [.str org]⟩ seedScanRows none]⟩⟩) := by
  have hs := seed_on_fresh org db hfresh
  simp only [setup_test_data, forUpTo_1_3, bind_run, call_InsertUser, call_CountUsersByOrgID,
    call_GetAllUsersByOrgID, ref_insert, ref_count, ref_select, require.NoError,
    assert.NoError, pure_run, if_true, fmtInt_seed, String.reduceAppend, hs,
    partition_seeded org db _ _ hfresh]
  have hlen : ∀ c, (seedRows org c).length = 3 := fun _ => rfl
  simp only [assert.Equal, assert.Len, pure_run, partition_seeded org db _ _ hfresh, hlen,
    Nat.cast_ofNat, if_true, List.length_map]
  simp [seedRows, seedScanRows, seedQuery, fmtInt_seed]
  exact ⟨⟨rfl, rfl⟩, ⟨rfl, rfl⟩, rfl, rfl⟩

theorem delete_ref (env : Env) (session : Session) (org : String) (t0 : T) (db : RefDB)
    (tr : List Event) :
    delete_by_partition_key env refDriver ⟨some session⟩ org ⟨t0, ⟨db, tr⟩⟩ =
      (.ok (),
        ⟨{ t0 with out := t0.out ++
            [⟨t0.name, false, "SUCCESS: DELETE by partition key worked correctly", []⟩] },
         ⟨⟨db.rows.filter (fun r => r.org_id ≠ org), db.clock⟩,
          tr ++ [Event.exec session ⟨deleteStmt, [.str org]⟩ none,
                 Event.scan session ⟨countStmt, [.str org]⟩ 0 none]⟩⟩) := by
  have hz : (RefDB.mk (db.rows.filter (fun r => !decide (r.org_id = org)))
      db.clock).partition org = [] := by
    simp [RefDB.partition, List.filter_filter]
  simp [delete_by_partition_key, bind_run, call_DeleteUsersByOrgID, call_CountUsersByOrgID,
    ref_delete, ref_count, require.NoError, assert.NoError, assert.Equal, pure_run, hz, T.Logf]

/-- C5: against the reference store, when the store holds no row under the key
`test-org-<ts>` of the run, the scenario inserts `user-1`, `user-2`, `user-3`
without error, counts 3 and lists 3 rows, deletes the partition without error,
counts 0, and records no failure: its only reports are the platform line and
the line "SUCCESS".  The store ends with the rows it started with, and the
reports are the same for every such store and every start time. -/
theorem scenario_consistent_on_reference_store (env : Env) (db : RefDB)
    (hfresh : db.partition (orgIDAt env.Now) = []) :
    TestDeleteByPartitionKey_ReproducesIssue env refDriver (startState db) =
      (.ok (),
        { t := { name := "TestDeleteByPartitionKey_ReproducesIssue", failed := false,
                 out := [⟨"TestDeleteByPartitionKey_ReproducesIssue", false,
                          "Running on platform: %s/%s", [.str env.GOOS, .str env.GOARCH]⟩,
                         ⟨"TestDeleteByPartitionKey_ReproducesIssue/delete_by_partition_key",
                          false, "SUCCESS: DELETE by partition key worked correctly", []⟩] },
          w := { db := ⟨db.rows, db.clock + 3⟩,
                 trace :=
                  [Event.exec ⟨0⟩ ⟨insertStmt, [.str (orgIDAt env.Now), .str "user-1",
                      .str "\x7b\"name\":\"User1\"\x7d", .int 1]⟩ none,
                   Event.exec ⟨0⟩ ⟨insertStmt, [.str (orgIDAt env.Now), .str "user-2",
                      .str "\x7b\"name\":\"User2\"\x7d", .int 1]⟩ none,
                   Event.exec ⟨0⟩ ⟨insertStmt, [.str (orgIDAt env.Now), .str "user-3",
                      .str "\x7b\"name\":\"User3\"\x7d", .int 1]⟩ none,
                   Event.scan ⟨0⟩ ⟨countStmt, [.str (orgIDAt env.Now)]⟩ 3 none,
                   Event.iter ⟨0⟩ ⟨selectStmt, [.str (orgIDAt env.Now)]⟩
                     [⟨"user-1", "\x7b\"name\":\"User1\"\x7d", 1⟩,
                      ⟨"user-2", "\x7b\"name\":\"User2\"\x7d", 1⟩,
                      ⟨"user-3", "\x7b\"name\":\"User3\"\x7d", 1⟩] none,
                   Event.exec ⟨0⟩ ⟨deleteStmt, [.str (orgIDAt env.Now)]⟩ none,
                   Event.scan ⟨0⟩ ⟨countStmt, [.str (orgIDAt env.Now)]⟩ 0 none,
                   Event.close ⟨0⟩] } }) := by
  rw [scenario_connected env refDriver db ⟨0⟩ db rfl]
  have hq : ∀ org : String,
      seedQuery org 1 = ⟨insertStmt, [.str org, .str "user-1",
        .str "\x7b\"name\":\"User1\"\x7d", .int 1]⟩ ∧
      seedQuery org 2 = ⟨insertStmt, [.str org, .str "user-2",
        .str "\x7b\"name\":\"User2\"\x7d", .int 1]⟩ ∧
      seedQuery org 3 = ⟨insertStmt, [.str org, .str "user-3",
        .str "\x7b\"name\":\"User3\"\x7d", .int 1]⟩ := fun _ => ⟨rfl, rfl, rfl⟩
  simp only [afterDelete, afterSetup, connectedState, T.Run, T.sub,
    setup_ref ⟨0⟩ (orgIDAt env.Now) _ db [] hfresh, delete_ref,
    delete_seeded (orgIDAt env.Now) db hfresh, ScyllaClient.Close, hq, seedScanRows]
  simp [refDriver]

theorem scenario_consistent_on_reference_store_witness :
    TestDeleteByPartitionKey_ReproducesIssue exampleEnv refDriver
        (startState ⟨[⟨"test-org-1699999999", "user-1", "", 7, 0⟩], 1⟩) =
      (.ok (),
        { t := { name := "TestDeleteByPartitionKey_ReproducesIssue", failed := false,
                 out := [⟨"TestDeleteByPartitionKey_ReproducesIssue", false,
                          "Running on platform: %s/%s", [.str "linux", .str "amd64"]⟩,
                         ⟨"TestDeleteByPartitionKey_ReproducesIssue/delete_by_partition_key",
                          false, "SUCCESS: DELETE by partition key worked correctly", []⟩] },
          w := { db := ⟨[⟨"test-org-1699999999", "user-1", "", 7, 0⟩], 1 + 3⟩,
                 trace :=
                  [Event.exec ⟨0⟩ ⟨insertStmt, [.str (orgIDAt exampleEnv.Now), .str "user-1",
                      .str "\x7b\"name\":\"User1\"\x7d", .int 1]⟩ none,
                   Event.exec ⟨0⟩ ⟨insertStmt, [.str (orgIDAt exampleEnv.Now), .str "user-2",
                      .str "\x7b\"name\":\"User2\"\x7d", .int 1]⟩ none,
                   Event.exec ⟨0⟩ ⟨insertStmt, [.str (orgIDAt exampleEnv.Now), .str "user-3",
                      .str "\x7b\"name\":\"User3\"\x7d", .int 1]⟩ none,
                   Event.scan ⟨0⟩ ⟨countStmt, [.str (orgIDAt exampleEnv.Now)]⟩ 3 none,
                   Event.iter ⟨0⟩ ⟨selectStmt, [.str (orgIDAt exampleEnv.Now)]⟩
                     [⟨"user-1", "\x7b\"name\":\"User1\"\x7d", 1⟩,
                      ⟨"user-2", "\x7b\"name\":\"User2\"\x7d", 1⟩,
                      ⟨"user-3", "\x7b\"name\":\"User3\"\x7d", 1⟩] none,
                   Event.exec ⟨0⟩ ⟨deleteStmt, [.str (orgIDAt exampleEnv.Now)]⟩ none,
                   Event.scan ⟨0⟩ ⟨countStmt, [.str (orgIDAt exampleEnv.Now)]⟩ 0 none,
                   Event.close ⟨0⟩] } }) :=
  scenario_consistent_on_reference_store exampleEnv
    ⟨[⟨"test-org-1699999999", "user-1", "", 7, 0⟩], 1⟩ (by decide)

/-! ### Counting and listing after inserts -/

theorem storedAs_length (p : String) (clock : Nat) (items : List (String × String × Int)) :
    (storedAs p clock items).length = items.length := by
  induction items generalizing clock with
  | nil => rfl
  | cons x xs ih =>
    obtain ⟨id, data, v⟩ := x
    simp [storedAs, ih]

theorem storedAs_partition (p : String) (clock : Nat) (items : List (String × String × Int)) :
    (storedAs p clock items).filter (fun r => r.org_id = p) = storedAs p clock items := by
  induction items generalizing clock with
  | nil => rfl
  | cons x xs ih =>
    obtain ⟨id, data, v⟩ := x
    simp [storedAs, ih]

theorem storedAs_user_ids (p : String) (clock : Nat) (items : List (String × String × Int)) :
    (storedAs p clock items).map (fun r => r.user_id) = items.map (fun x => x.1) := by
  induction items generalizing clock with
  | nil => rfl
  | cons x xs ih =>
    obtain ⟨id, data, v⟩ := x
    simp [storedAs, ih]

theorem insertAll_ref (session : Session) (p : String)
    (items : List (String × String × Int)) (db : RefDB) (tr : List Event)
    (hfresh : ∀ x ∈ db.rows, x.org_id = p → x.user_id ∉ items.map (fun x => x.1))
    (hdistinct : (items.map (fun x => x.1)).Nodup) :
    ∃ tr1, insertAll refDriver ⟨some session⟩ p items ⟨db, tr⟩ =
      some ⟨⟨db.rows ++ storedAs p db.clock items, db.clock + items.length⟩, tr1⟩ := by
  induction items generalizing db tr with
  | nil => exact ⟨tr, by simp [insertAll, storedAs]⟩
  | cons x xs ih =>
    obtain ⟨id, data, v⟩ := x
    simp only [List.map_cons, List.nodup_cons] at hdistinct
    have hup : upsertRow ⟨p, id, data, v, db.clock⟩ db.rows
        = db.rows ++ [⟨p, id, data, v, db.clock⟩] := by
      apply upsertRow_fresh
      intro y hy h
      exact hfresh y hy h.1 (by simp [h.2])
    obtain ⟨tr1, h1⟩ := ih ⟨db.rows ++ [⟨p, id, data, v, db.clock⟩], db.clock + 1⟩
      (tr ++ [Event.exec session ⟨insertStmt, [.str p, .str id, .str data, .int v]⟩ none])
      (by
        intro y hy hyp
        rcases List.mem_append.mp hy with hy | hy
        · intro hmem
          exact hfresh y hy hyp (List.mem_cons_of_mem _ hmem)
        · simp only [List.mem_singleton] at hy
          subst hy
          exact hdistinct.1)
      hdistinct.2
    refine ⟨tr1, ?_⟩
    simp only [insertAll, ScyllaClient.InsertUser, ref_insert, hup, h1, storedAs,
      List.length_cons, List.append_assoc, List.singleton_append]
    simp only [Option.some.injEq, World.mk.injEq, RefDB.mk.injEq, true_and, and_true]
    omega

/-- C6: over the reference store, for every list of `N` rows with pairwise
distinct user ids (every `N`, so every `N ≥ 1`) and every partition key `p`
that has no row in the store: after `InsertUser(p, id, data, v)` for each of
them, `CountUsersByOrgID(p)` returns `(N, nil)`, and `GetAllUsersByOrgID(p)`
returns a nil error and exactly `N` maps whose `user_id` values are the
inserted ids, each once. -/
theorem count_and_list_after_inserts (session : Session) (p : String) (db : RefDB)
    (tr : List Event) (items : List (String × String × Int))
    (hfresh : db.partition p = [])
    (hdistinct : (items.map (fun x => x.1)).Nodup) :
    ∃ w1, insertAll refDriver ⟨some session⟩ p items ⟨db, tr⟩ = some w1 ∧
      (∃ w2, (ScyllaClient.mk (some session)).CountUsersByOrgID refDriver p w1 =
        some (((items.length : Int), none), w2)) ∧
      (∃ L w3, (ScyllaClient.mk (some session)).GetAllUsersByOrgID refDriver p w1 =
          some ((L, none), w3) ∧
        L.length = items.length ∧
        (L.map (fun m => m.get "user_id")).Perm (items.map (fun x => some (Value.str x.1))) ∧
        (L.map (fun m => m.get "user_id")).Nodup) := by
  have hf : ∀ x ∈ db.rows, x.org_id ≠ p := by
    intro x hx hx2
    have : x ∈ db.partition p := List.mem_filter.mpr ⟨hx, by simpa using hx2⟩
    rw [hfresh] at this
    exact absurd this (List.not_mem_nil x)
  obtain ⟨tr1, h1⟩ := insertAll_ref session p items db tr
    (fun x hx hp => absurd hp (hf x hx)) hdistinct
  have hpart : (RefDB.mk (db.rows ++ storedAs p db.clock items)
      (db.clock + items.length)).partition p = storedAs p db.clock items := by
    simp only [RefDB.partition] at hfresh ⊢
    rw [List.filter_append, hfresh, storedAs_partition, List.nil_append]
  have hsplit : items.map (fun x => some (Value.str x.1))
      = (items.map (fun x => x.1)).map (fun s => some (Value.str s)) := by
    rw [List.map_map]
    rfl
  have hids : List.map (fun m => GoMap.get m "user_id")
      (List.map rowMap (List.map (fun r => (⟨r.user_id, r.user_data, r.version⟩ : ScanRow))
        (storedAs p db.clock items))) = items.map (fun x => some (Value.str x.1)) := by
    rw [hsplit, ← storedAs_user_ids p db.clock items]
    simp [GoMap.get, rowMap, List.lookup]
  have hget := GetAllUsersByOrgID_eq refDriver session p
    ⟨⟨db.rows ++ storedAs p db.clock items, db.clock + items.length⟩, tr1⟩
  simp only [ref_select, hpart] at hget
  have hcount : (ScyllaClient.mk (some session)).CountUsersByOrgID refDriver p
      ⟨⟨db.rows ++ storedAs p db.clock items, db.clock + items.length⟩, tr1⟩ =
      some (((items.length : Int), none),
        ⟨⟨db.rows ++ storedAs p db.clock items, db.clock + items.length⟩,
          tr1 ++ [Event.scan session ⟨countStmt, [.str p]⟩ items.length none]⟩) := by
    simp only [ScyllaClient.CountUsersByOrgID, ref_count, hpart, storedAs_length]
  refine ⟨_, h1, ⟨_, hcount⟩, ⟨_, _, hget, ?_, ?_, ?_⟩⟩
  · simp [storedAs_length]
  · rw [hids]
  · rw [hids, hsplit]
    exact List.Nodup.map (fun a b h => by simpa using h) hdistinct

theorem count_and_list_after_inserts_witness :
    ∃ w1, insertAll refDriver ⟨some ⟨0⟩⟩ "test-org-1700000001"
        [("user-1", "a", 1), ("user-2", "b", 1)] ⟨seededStore, []⟩ = some w1 ∧
      (∃ w2, (ScyllaClient.mk (some ⟨0⟩)).CountUsersByOrgID refDriver "test-org-1700000001" w1 =
        some (((([("user-1", "a", 1), ("user-2", "b", 1)] :
          List (String × String × Int)).length : Int), none), w2)) ∧
      (∃ L w3, (ScyllaClient.mk (some ⟨0⟩)).GetAllUsersByOrgID refDriver
            "test-org-1700000001" w1 = some ((L, none), w3) ∧
        L.length = ([("user-1", "a", 1), ("user-2", "b", 1)] :
          List (String × String × Int)).length ∧
        (L.map (fun m => m.get "user_id")).Perm
          (([("user-1", "a", 1), ("user-2", "b", 1)] : List (String × String × Int)).map
            (fun x => some (Value.str x.1))) ∧
        (L.map (fun m => m.get "user_id")).Nodup) :=
  count_and_list_after_inserts ⟨0⟩ "test-org-1700000001" seededStore []
    [("user-1", "a", 1), ("user-2", "b", 1)] (by decide) (by decide)

/-! ### The partition key of a run -/

theorem digitChar_value : ∀ k, k < 10 → (Nat.digitChar k).toNat - 48 = k := by
  decide

theorem digitChar_ne_minus : ∀ k, k < 10 → Nat.digitChar k ≠ '-' := by
  decide

theorem toDigitsCore_value (fuel n : Nat) (ds : List Char) (h : n < fuel) :
    (Nat.toDigitsCore 10 fuel n ds).foldl (fun acc c => 10 * acc + (c.toNat - 48)) 0
      = ds.foldl (fun acc c => 10 * acc + (c.toNat - 48)) n := by
  induction fuel generalizing n ds with
  | zero => omega
  | succ fuel ih =>
    simp only [Nat.toDigitsCore]
    have hd := digitChar_value (n % 10) (Nat.mod_lt n (by decide))
    split
    · next h0 =>
      simp only [List.foldl_cons, hd]
      congr 1
      omega
    · next h0 =>
      rw [ih (n / 10) _ (by omega)]
      simp only [List.foldl_cons, hd]
      congr 1
      omega

theorem toDigitsCore_head (fuel n : Nat) (ds : List Char)
    (h : 0 < fuel ∨ ∃ c rest, ds = c :: rest ∧ c ≠ '-') :
    ∃ c rest, Nat.toDigitsCore 10 fuel n ds = c :: rest ∧ c ≠ '-' := by
  induction fuel generalizing n ds with
  | zero =>
    rcases h with h | h
    · omega
    · simpa [Nat.toDigitsCore] using h
  | succ fuel ih =>
    simp only [Nat.toDigitsCore]
    have hd := digitChar_ne_minus (n % 10) (Nat.mod_lt n (by decide))
    split
    · exact ⟨_, _, rfl, hd⟩
    · exact ih (n / 10) _ (Or.inr ⟨_, _, rfl, hd⟩)

theorem decimalValue_repr (n : Nat) : decimalValue (Nat.repr n).data = n := by
  have h := toDigitsCore_value (n + 1) n [] (by omega)
  simpa [decimalValue, Nat.repr, Nat.toDigits, List.asString] using h

theorem intValue_fmtInt (n : Int) : intValue (fmtInt n) = n := by
  cases n with
  | ofNat m =>
    obtain ⟨c, rest, hcr, hc⟩ := toDigitsCore_head (m + 1) m [] (Or.inl (by omega))
    have hdata : (fmtInt (Int.ofNat m)).data = c :: rest := by
      rw [← hcr]
      rfl
    have hval := decimalValue_repr m
    have hdata2 : (Nat.repr m).data = c :: rest := by
      rw [← hcr]
      rfl
    rw [hdata2] at hval
    unfold intValue
    rw [hdata]
    split
    · next heq =>
      simp only [List.cons.injEq] at heq
      exact absurd heq.1 hc
    · next heq =>
      simp [hval]
  | negSucc m =>
    have hdata : (fmtInt (Int.negSucc m)).data = '-' :: (Nat.repr (m + 1)).data := rfl
    unfold intValue
    rw [hdata]
    simp only [decimalValue_repr]
    rfl

theorem fmtInt_injective (a b : Int) (h : fmtInt a = fmtInt b) : a = b := by
  rw [← intValue_fmtInt a, ← intValue_fmtInt b, h]

theorem orgIDAt_eq_iff (t1 t2 : Time) : orgIDAt t1 = orgIDAt t2 ↔ t1.Unix = t2.Unix := by
  constructor
  · intro h
    apply fmtInt_injective
    have hd := congrArg String.data h
    simp only [orgIDAt, String.data_append] at hd
    exact String.ext (List.append_cancel_left hd)
  · intro h
    simp only [orgIDAt, h]

/-- C7, as amended: the partition key is a function of the Unix second in which
the run starts and of nothing else.  Two runs get the same key exactly when
they start in the same second: runs that start in different seconds never
collide, and two runs that start within the same second always do. -/
theorem partition_key_same_iff_same_second (t1 t2 : Time) :
    orgIDAt t1 = orgIDAt t2 ↔ t1.Unix = t2.Unix :=
  orgIDAt_eq_iff t1 t2

/-- C7 as stated fails: two runs that start half a second apart within the
second 1700000000 both get the key `test-org-1700000000`. -/
theorem same_second_same_key_counterexample :
    (⟨1700000000, 0⟩ : Time) ≠ ⟨1700000000, 500000000⟩ ∧
    orgIDAt ⟨1700000000, 0⟩ = "test-org-1700000000" ∧
    orgIDAt ⟨1700000000, 500000000⟩ = "test-org-1700000000" :=
  ⟨by decide, rfl, rfl⟩

end Repro
